import Mathlib

/- Shallow embedding of the Connector core of MCSTrack
   (src/connector/connector.py together with src/connector/structures/).
   Every operation is translated statement by statement from the Python source.

   Modelling conventions:
   - Timestamps stand for parsed ISO-8601 datetimes: parsing and formatting are
     modelled as the identity on already-parsed values (order preserving), and
     datetime.datetime.min is the bottom value 0.  datetime.datetime.utcnow()
     is an oracle parameter `now` threaded into the operations that call it.
   - uuid.uuid4() request identifiers are modelled by a fresh-counter supply
     (the code relies only on freshness of the identifiers).
   - Python dicts are insertion-ordered association lists; assignment updates
     the first matching key in place or appends a fresh one at the end.
   - A Python exception is modelled by `PyResult.raised` carrying the state at
     the moment of the raise, so mutations made before the raise are retained.
   - The two status-message sinks (MCastComponent.add_status_message and
     StatusMessageSource.enqueue_status_message, whose defining files are not
     part of the sources here) are modelled from the spec as append-only lists.
-/

namespace MCSTrack

abbrev Timestamp := Nat

/-- datetime.datetime.min, the initial value of the snapshot timestamps. -/
def datetime_min : Timestamp := 0

structure StatusMessage where
  severity : String
  message : String
deriving DecidableEq

structure MarkerSnapshot where
  payload : Nat
deriving DecidableEq

structure Pose where
  payload : Nat
deriving DecidableEq

structure ImageResolution where
  x_px : Nat
  y_px : Nat
deriving DecidableEq

structure DetectorResolution where
  detector_serial_identifier : String
  image_resolution : ImageResolution
deriving DecidableEq

structure IntrinsicParameters where
  payload : Nat
deriving DecidableEq

structure CalibrationResultMetadata where
  identifier : String
  timestamp_utc : Timestamp
deriving DecidableEq

structure IntrinsicCalibration where
  detector_serial_identifier : String
  calibrated_values : IntrinsicParameters
deriving DecidableEq

structure DetectorFrame where
  detected_marker_snapshots : List MarkerSnapshot
  rejected_marker_snapshots : List MarkerSnapshot
  timestamp_utc : Timestamp
deriving DecidableEq

structure PoseSolverFrame where
  detector_poses : List Pose
  target_poses : List Pose
  timestamp_utc : Timestamp
deriving DecidableEq

/-- The request records the Connector constructs (src/connector/connector.py imports). -/
inductive MCastRequest where
  | start_capture
  | stop_capture
  | list_calibration_detector_resolutions
  | get_capture_properties
  | list_calibration_result_metadata
      (detector_serial_identifier : String) (image_resolution : ImageResolution)
  | get_calibration_result (result_identifier : Option String)
  | set_intrinsic_parameters
      (detector_label : String) (intrinsic_parameters : Option IntrinsicParameters)
  | start_pose_solver
  | stop_pose_solver
  | get_marker_snapshots
  | add_marker_corners
      (detected_marker_snapshots rejected_marker_snapshots : List MarkerSnapshot)
      (detector_label : String) (detector_timestamp_utc : Timestamp)
  | get_poses
  | dequeue_status_messages
deriving DecidableEq

/-- The response records dispatched in Connector.handle_response_series; `other`
stands for any response class outside the dispatch chain. -/
inductive MCastResponse where
  | add_target_marker
  | get_calibration_result (intrinsic_calibration : IntrinsicCalibration)
  | get_capture_properties (resolution_x_px resolution_y_px : Nat)
  | get_marker_snapshots
      (detected_marker_snapshots rejected_marker_snapshots : List MarkerSnapshot)
  | get_poses (detector_poses target_poses : List Pose)
  | list_calibration_detector_resolutions (detector_resolutions : List DetectorResolution)
  | list_calibration_result_metadata (metadata_list : List CalibrationResultMetadata)
  | error (message : String)
  | empty
  | dequeue_status_messages (status_messages : List StatusMessage)
  | other (tag : String)
deriving DecidableEq

structure MCastRequestSeries where
  series : List MCastRequest
deriving DecidableEq

structure MCastResponseSeries where
  series : List MCastResponse
  responder : String
deriving DecidableEq

/-- Modelled from the spec: the role constants COMPONENT_ROLE_LABEL_DETECTOR and
COMPONENT_ROLE_LABEL_POSE_SOLVER live in src/common/structures, which is not
among the sources; the spec only requires two distinct role tags. -/
def COMPONENT_ROLE_LABEL_DETECTOR : String := "detector"

def COMPONENT_ROLE_LABEL_POSE_SOLVER : String := "pose_solver"

structure ComponentAddress where
  label : String
  role : String
  ip_address : String
  port : Nat
deriving DecidableEq

/-- Detector-specific live state (src/connector/structures/live_detector_connection.py). -/
structure LiveDetectorData where
  request_id : Option Nat
  calibration_result_identifier : Option String
  calibrated_resolutions : Option (List DetectorResolution)
  current_resolution : Option ImageResolution
  current_intrinsic_parameters : Option IntrinsicParameters
  detected_marker_snapshots : List MarkerSnapshot
  rejected_marker_snapshots : List MarkerSnapshot
  marker_snapshot_timestamp : Timestamp
deriving DecidableEq

/-- Pose-solver-specific live state (src/connector/structures/live_pose_solver_connection.py). -/
structure LivePoseSolverData where
  request_id : Option Nat
  detector_poses : List Pose
  target_poses : List Pose
  detector_timestamps : List (String × Timestamp)
  poses_timestamp : Timestamp
deriving DecidableEq

inductive LiveRoleData where
  | detector (d : LiveDetectorData)
  | pose_solver (p : LivePoseSolverData)
deriving DecidableEq

/-- Live per-peer state: the LiveConnection base-class fields (status string,
attempt counter, next-attempt time, socket handle; the base-class file is not
among the sources and its fields are modelled from the spec's PeerLiveState)
plus the role-specific substructure from the two subclass files. -/
structure LiveConnection where
  status : String
  attempt_count : Nat
  next_attempt_timestamp_utc : Timestamp
  socket : Bool
  role_data : LiveRoleData
deriving DecidableEq

/-- Field values established by LiveDetectorConnection.reset. -/
def reset_live_detector_data : LiveDetectorData :=
  { request_id := none
    calibration_result_identifier := none
    calibrated_resolutions := none
    current_resolution := none
    current_intrinsic_parameters := none
    detected_marker_snapshots := []
    rejected_marker_snapshots := []
    marker_snapshot_timestamp := datetime_min }

/-- Field values established by LivePoseSolverConnection.reset. -/
def reset_live_pose_solver_data : LivePoseSolverData :=
  { request_id := none
    detector_poses := []
    target_poses := []
    detector_timestamps := []
    poses_timestamp := datetime_min }

/-- Modelled from the spec: the LiveConnection base-class reset (file not among
the sources) puts a peer at session status Disconnected with no socket and a
zero attempt counter. -/
def fresh_live_connection (rd : LiveRoleData) : LiveConnection :=
  { status := "disconnected"
    attempt_count := 0
    next_attempt_timestamp_utc := 0
    socket := false
    role_data := rd }

/-- Modelled from the spec: LiveConnection.ATTEMPT_COUNT_MAXIMUM (base-class
file not among the sources; the spec gives an implementation-defined default
of about 5). -/
def ATTEMPT_COUNT_MAXIMUM : Nat := 5

/-- Modelled from the spec: LiveConnection.ATTEMPT_TIME_GAP_SECONDS. -/
def ATTEMPT_TIME_GAP_SECONDS : Nat := 5

structure Connection where
  static : ComponentAddress
  live_connection : LiveConnection
deriving DecidableEq

/-- Connector.Status (IntEnum in the source). -/
inductive Status where
  | STOPPED
  | STARTING
  | RUNNING
  | STOPPING
deriving DecidableEq

/-- Connector.StartupState (IntEnum in the source). -/
inductive StartupState where
  | INITIAL
  | CONNECTING
  | STARTING_CAPTURE
  | GET_RESOLUTIONS
  | LIST_INTRINSICS
  | GET_INTRINSICS
  | SET_INTRINSICS
deriving DecidableEq

def DETECTING_ONLY : String := "detecting_only"

def DETECTING_AND_SOLVING : String := "detecting_and_solving"

/-- First-match lookup in an insertion-ordered association list (Python dict read). -/
def dget {κ α : Type} [DecidableEq κ] : List (κ × α) → κ → Option α
  | [], _ => none
  | (k, v) :: rest, key => if k = key then some v else dget rest key

/-- Python dict assignment: replace the first matching key in place, else append. -/
def dset {κ α : Type} [DecidableEq κ] : List (κ × α) → κ → α → List (κ × α)
  | [], key, value => [(key, value)]
  | (k, v) :: rest, key, value =>
    if k = key then (k, value) :: rest else (k, v) :: dset rest key value

/-- Python dict deletion (del / pop): drop the first matching key. -/
def ddel {κ α : Type} [DecidableEq κ] : List (κ × α) → κ → List (κ × α)
  | [], _ => []
  | (k, v) :: rest, key => if k = key then rest else (k, v) :: ddel rest key

/-- Apply a function to the value at the first matching key, if present. -/
def dmodify {κ α : Type} [DecidableEq κ] (key : κ) (f : α → α) :
    List (κ × α) → List (κ × α)
  | [] => []
  | (k, v) :: rest =>
    if k = key then (k, f v) :: rest else (k, v) :: dmodify key f rest

@[simp] theorem dget_nil {κ α : Type} [DecidableEq κ] (k : κ) :
    dget ([] : List (κ × α)) k = none := rfl

@[simp] theorem dget_cons {κ α : Type} [DecidableEq κ] (k key : κ) (v : α) (rest : List (κ × α)) :
    dget ((k, v) :: rest) key = if k = key then some v else dget rest key := rfl

@[simp] theorem dmodify_nil {κ α : Type} [DecidableEq κ] (key : κ) (f : α → α) :
    dmodify key f ([] : List (κ × α)) = [] := rfl

@[simp] theorem dmodify_cons {κ α : Type} [DecidableEq κ] (k key : κ) (v : α)
    (rest : List (κ × α)) (f : α → α) :
    dmodify key f ((k, v) :: rest) =
      if k = key then (k, f v) :: rest else (k, v) :: dmodify key f rest := rfl

theorem dget_dmodify_other {κ α : Type} [DecidableEq κ] (key key' : κ) (f : α → α)
    (l : List (κ × α)) (h : key ≠ key') :
    dget (dmodify key f l) key' = dget l key' := by
  induction l with
  | nil => rfl
  | cons p rest ih =>
    obtain ⟨k, v⟩ := p
    by_cases hk : k = key
    · subst hk
      simp [dmodify, dget, h]
    · simp only [dmodify_cons, if_neg hk, dget_cons, ih]

theorem dget_dmodify_self {κ α : Type} [DecidableEq κ] (key : κ) (f : α → α)
    (l : List (κ × α)) :
    dget (dmodify key f l) key = (dget l key).map f := by
  induction l with
  | nil => rfl
  | cons p rest ih =>
    obtain ⟨k, v⟩ := p
    by_cases hk : k = key
    · subst hk; simp [dmodify, dget]
    · simp only [dmodify_cons, if_neg hk, dget_cons, ih]

theorem dget_dset_other {κ α : Type} [DecidableEq κ] (key key' : κ) (value : α)
    (l : List (κ × α)) (h : key ≠ key') :
    dget (dset l key value) key' = dget l key' := by
  induction l with
  | nil => simp [dset, dget, h]
  | cons p rest ih =>
    obtain ⟨k, v⟩ := p
    by_cases hk : k = key
    · subst hk; simp [dset, dget, h]
    · simp only [dset, if_neg hk, dget_cons, ih]

theorem dget_dset_self {κ α : Type} [DecidableEq κ] (key : κ) (value : α)
    (l : List (κ × α)) :
    dget (dset l key value) key = some value := by
  induction l with
  | nil => simp [dset, dget]
  | cons p rest ih =>
    obtain ⟨k, v⟩ := p
    by_cases hk : k = key
    · subst hk; simp [dset, dget]
    · simp only [dset, if_neg hk, dget_cons, ih, if_neg hk]

/-- Connector state (the instance attributes set up in Connector.__init__).
The field push_log is a ghost, write-only journal of every request series ever
handed to request_series_push; it is appended to exactly where the source calls
that method and is read by no operation, serving only to state history
properties of the request stream. -/
structure Connector where
  status : Status
  startup_mode : String
  startup_state : StartupState
  connections : List (String × Connection)
  pending_request_ids : List Nat
  request_series_by_label : List (String × List (MCastRequestSeries × Nat))
  response_series_by_id : List (Nat × Option MCastResponseSeries)
  next_request_id : Nat
  status_messages : List StatusMessage
  source_status_messages : List StatusMessage
  push_log : List (String × List MCastRequest)
deriving DecidableEq

/-- Connector.__init__. -/
def Connector.init : Connector :=
  { status := Status.STOPPED
    startup_mode := DETECTING_AND_SOLVING
    startup_state := StartupState.INITIAL
    connections := []
    pending_request_ids := []
    request_series_by_label := []
    response_series_by_id := []
    next_request_id := 0
    status_messages := []
    source_status_messages := []
    push_log := [] }

/-- Result of a Python call: normal return or a raised exception. -/
inductive PyResult (α : Type) where
  | ok (value : α)
  | raised (message : String)
deriving DecidableEq

/-- A stateful Python call: the Connector state after the call (the state at
the raise point when an exception escapes) together with the outcome. -/
structure PyM (α : Type) where
  state : Connector
  result : PyResult α

/-- MCastComponent.add_status_message, modelled from the spec as an append-only sink. -/
def add_status_message (s : Connector) (severity message : String) : Connector :=
  { s with status_messages := s.status_messages ++ [⟨severity, message⟩] }

/-- StatusMessageSource.enqueue_status_message, modelled from the spec as an
append-only sink. -/
def enqueue_status_message (s : Connector) (severity message : String) : Connector :=
  { s with source_status_messages := s.source_status_messages ++ [⟨severity, message⟩] }

/-- Update the connection stored under a label (Python mutates the object held
in the _connections dict in place). -/
def modify_connection (s : Connector) (label : String) (f : Connection → Connection) :
    Connector :=
  { s with connections := dmodify label f s.connections }

def modify_live (s : Connector) (label : String) (f : LiveConnection → LiveConnection) :
    Connector :=
  modify_connection s label (fun c => { c with live_connection := f c.live_connection })

def set_live_detector_data (s : Connector) (label : String) (d : LiveDetectorData) :
    Connector :=
  modify_live s label (fun lc =>
    match lc.role_data with
    | LiveRoleData.detector _ => { lc with role_data := LiveRoleData.detector d }
    | _ => lc)

def set_live_pose_solver_data (s : Connector) (label : String) (p : LivePoseSolverData) :
    Connector :=
  modify_live s label (fun lc =>
    match lc.role_data with
    | LiveRoleData.pose_solver _ => { lc with role_data := LiveRoleData.pose_solver p }
    | _ => lc)

/-- Connector.add_connection. -/
def add_connection (s : Connector) (component_address : ComponentAddress) : PyM Unit :=
  let label := component_address.label
  if (dget s.connections label).isSome then
    ⟨s, PyResult.raised ("Connection associated with " ++ label ++ " already exists.")⟩
  else if component_address.role = COMPONENT_ROLE_LABEL_DETECTOR then
    let conn : Connection :=
      ⟨component_address, fresh_live_connection (LiveRoleData.detector reset_live_detector_data)⟩
    ⟨{ s with connections := dset s.connections label conn }, PyResult.ok ()⟩
  else if component_address.role = COMPONENT_ROLE_LABEL_POSE_SOLVER then
    let conn : Connection :=
      ⟨component_address, fresh_live_connection (LiveRoleData.pose_solver reset_live_pose_solver_data)⟩
    ⟨{ s with connections := dset s.connections label conn }, PyResult.ok ()⟩
  else
    ⟨s, PyResult.raised ("Unrecognized component role " ++ component_address.role ++ ".")⟩

/-- Connector.begin_connecting. -/
def begin_connecting (s : Connector) (label : String) : Connector :=
  match dget s.connections label with
  | none =>
    add_status_message s "error" ("label " ++ label ++ " is not in list. Returning.")
  | some c =>
    if c.live_connection.status = "connected" then
      add_status_message s "warning" ("label " ++ label ++ " is already connected. Returning.")
    else
      modify_live s label (fun lc => { lc with status := "connecting", attempt_count := 0 })

/-- Connector.begin_disconnecting. -/
def begin_disconnecting (s : Connector) (label : String) : Connector :=
  match dget s.connections label with
  | none =>
    add_status_message s "error" ("label " ++ label ++ " is not in list. Returning.")
  | some _ =>
    modify_live s label (fun lc =>
      { lc with status := "disconnecting", attempt_count := 0, socket := false })

/-- Connector.remove_connection. -/
def remove_connection (s : Connector) (label : String) : PyM Unit :=
  match dget s.connections label with
  | none =>
    ⟨s, PyResult.raised ("Failed to find connection associated with " ++ label ++ ".")⟩
  | some _ =>
    ⟨{ s with connections := ddel s.connections label }, PyResult.ok ()⟩

/-- Connector.get_connected_role_labels. -/
def get_connected_role_labels (s : Connector) (role : String) : List String :=
  (s.connections.filter (fun lc =>
    lc.2.static.role = role ∧ lc.2.live_connection.status = "connected")).map
    (fun lc => lc.2.static.label)

/-- Connector.get_connected_detector_labels. -/
def get_connected_detector_labels (s : Connector) : List String :=
  get_connected_role_labels s COMPONENT_ROLE_LABEL_DETECTOR

/-- Connector.get_connected_pose_solver_labels. -/
def get_connected_pose_solver_labels (s : Connector) : List String :=
  get_connected_role_labels s COMPONENT_ROLE_LABEL_POSE_SOLVER

/-- Connector.get_live_connection specialised to LiveDetectorConnection. -/
def get_live_detector_connection (s : Connector) (connection_label : String) :
    Option LiveDetectorData :=
  match dget s.connections connection_label with
  | none => none
  | some c =>
    match c.live_connection.role_data with
    | LiveRoleData.detector d => some d
    | _ => none

/-- Connector.get_live_connection specialised to LivePoseSolverConnection. -/
def get_live_pose_solver_connection (s : Connector) (connection_label : String) :
    Option LivePoseSolverData :=
  match dget s.connections connection_label with
  | none => none
  | some c =>
    match c.live_connection.role_data with
    | LiveRoleData.pose_solver p => some p
    | _ => none

/-- Connector.get_live_detector_frame.  The source's docstring promises None
when the detector has not been started or has produced no frame, but the code
returns a frame built from the reset-state fields in those cases. -/
def get_live_detector_frame (s : Connector) (detector_label : String) :
    Option DetectorFrame :=
  match get_live_detector_connection s detector_label with
  | none => none
  | some d =>
    some { detected_marker_snapshots := d.detected_marker_snapshots
           rejected_marker_snapshots := d.rejected_marker_snapshots
           timestamp_utc := d.marker_snapshot_timestamp }

/-- Connector.get_live_pose_solver_frame. -/
def get_live_pose_solver_frame (s : Connector) (pose_solver_label : String) :
    Option PoseSolverFrame :=
  match get_live_pose_solver_connection s pose_solver_label with
  | none => none
  | some p =>
    some { detector_poses := p.detector_poses
           target_poses := p.target_poses
           timestamp_utc := p.poses_timestamp }

/-- Connector.is_running. -/
def is_running (s : Connector) : Bool :=
  s.status = Status.RUNNING

/-- Connector.handle_error_response. -/
def handle_error_response (s : Connector) (message : String) : Connector :=
  enqueue_status_message s "error" ("Received error: " ++ message)

/-- Connector.handle_response_unknown. -/
def handle_response_unknown (s : Connector) : Connector :=
  enqueue_status_message s "error" "Received unexpected response"

/-- Connector.handle_response_get_capture_properties. -/
def handle_response_get_capture_properties (s : Connector)
    (resolution_x_px resolution_y_px : Nat) (detector_label : String) : Connector :=
  match get_live_detector_connection s detector_label with
  | none =>
    enqueue_status_message s "error"
      ("Failed to find LiveDetectorConnection with label " ++ detector_label ++ ".")
  | some d =>
    set_live_detector_data s detector_label
      { d with current_resolution := some ⟨resolution_x_px, resolution_y_px⟩ }

/-- Connector.handle_response_get_calibration_result. -/
def handle_response_get_calibration_result (s : Connector)
    (intrinsic_calibration : IntrinsicCalibration) : Connector :=
  let detector_label := intrinsic_calibration.detector_serial_identifier
  match get_live_detector_connection s detector_label with
  | none =>
    enqueue_status_message s "error"
      ("Failed to find LiveDetectorConnection with label " ++ detector_label ++ ".")
  | some d =>
    set_live_detector_data s detector_label
      { d with current_intrinsic_parameters := some intrinsic_calibration.calibrated_values }

/-- Connector.handle_response_get_marker_snapshots; `now` models the
datetime.datetime.utcnow() call that timestamps the snapshot set. -/
def handle_response_get_marker_snapshots (s : Connector)
    (detected rejected : List MarkerSnapshot) (detector_label : String)
    (now : Timestamp) : Connector :=
  match get_live_detector_connection s detector_label with
  | none =>
    enqueue_status_message s "error"
      ("Failed to find LiveDetectorConnection with label " ++ detector_label ++ ".")
  | some d =>
    set_live_detector_data s detector_label
      { d with detected_marker_snapshots := detected
               rejected_marker_snapshots := rejected
               marker_snapshot_timestamp := now }

/-- Connector.handle_response_get_poses; `now` models datetime.datetime.utcnow(). -/
def handle_response_get_poses (s : Connector) (detector_poses target_poses : List Pose)
    (pose_solver_label : String) (now : Timestamp) : Connector :=
  match get_live_pose_solver_connection s pose_solver_label with
  | none =>
    enqueue_status_message s "error"
      ("Failed to find LivePoseSolverConnection with label " ++ pose_solver_label ++ ".")
  | some p =>
    set_live_pose_solver_data s pose_solver_label
      { p with detector_poses := detector_poses
               target_poses := target_poses
               poses_timestamp := now }

/-- Connector.handle_response_list_calibration_detector_resolutions. -/
def handle_response_list_calibration_detector_resolutions (s : Connector)
    (detector_resolutions : List DetectorResolution) (detector_label : String) : Connector :=
  match get_live_detector_connection s detector_label with
  | none =>
    enqueue_status_message s "error"
      ("Failed to find LiveDetectorConnection with label " ++ detector_label ++ ".")
  | some d =>
    set_live_detector_data s detector_label
      { d with calibrated_resolutions := some detector_resolutions }

/-- The selection loop of handle_response_list_calibration_result_metadata,
exactly as written: the running maximum newest_timestamp is initialised to
datetime.datetime.min, compared against, and never reassigned. -/
def newest_result_loop : List CalibrationResultMetadata → String → Timestamp → String
  | [], newest_result_id, _ => newest_result_id
  | m :: rest, newest_result_id, newest_timestamp =>
    if m.timestamp_utc > newest_timestamp then
      newest_result_loop rest m.identifier newest_timestamp
    else
      newest_result_loop rest newest_result_id newest_timestamp

/-- Connector.handle_response_list_calibration_result_metadata. -/
def handle_response_list_calibration_result_metadata (s : Connector)
    (metadata_list : List CalibrationResultMetadata) (detector_label : String) : Connector :=
  match metadata_list with
  | [] =>
    enqueue_status_message s "error"
      ("No calibration was available for detector " ++ detector_label ++
        ". No intrinsics will be set.")
  | first :: _ =>
    let newest_result_id := newest_result_loop metadata_list first.identifier datetime_min
    match get_live_detector_connection s detector_label with
    | none =>
      enqueue_status_message s "error"
        ("Failed to find LiveDetectorConnection with label " ++ detector_label ++ ".")
    | some d =>
      set_live_detector_data s detector_label
        { d with calibration_result_identifier := some newest_result_id }

/-- The response dispatch loop of Connector.handle_response_series, with the
success flag threaded exactly as in the source (note that the branches for
AddTargetMarkerResponse etc. reassign success to True, and that the
GetMarkerSnapshotsResponse branch leaves it untouched). -/
def handle_response_series_loop (now : Timestamp) (responder : String) :
    Connector → List MCastResponse → Bool → Connector × Bool
  | s, [], success => (s, success)
  | s, r :: rest, success =>
    match r with
    | MCastResponse.add_target_marker =>
      handle_response_series_loop now responder s rest true
    | MCastResponse.get_calibration_result ic =>
      handle_response_series_loop now responder
        (handle_response_get_calibration_result s ic) rest true
    | MCastResponse.get_capture_properties x y =>
      handle_response_series_loop now responder
        (handle_response_get_capture_properties s x y responder) rest true
    | MCastResponse.get_marker_snapshots det rej =>
      handle_response_series_loop now responder
        (handle_response_get_marker_snapshots s det rej responder now) rest success
    | MCastResponse.get_poses dp tp =>
      handle_response_series_loop now responder
        (handle_response_get_poses s dp tp responder now) rest true
    | MCastResponse.list_calibration_detector_resolutions drs =>
      handle_response_series_loop now responder
        (handle_response_list_calibration_detector_resolutions s drs responder) rest true
    | MCastResponse.list_calibration_result_metadata ml =>
      handle_response_series_loop now responder
        (handle_response_list_calibration_result_metadata s ml responder) rest true
    | MCastResponse.error m =>
      handle_response_series_loop now responder (handle_error_response s m) rest false
    | MCastResponse.empty =>
      handle_response_series_loop now responder s rest success
    | MCastResponse.dequeue_status_messages _ =>
      handle_response_series_loop now responder (handle_response_unknown s) rest false
    | MCastResponse.other _ =>
      handle_response_series_loop now responder (handle_response_unknown s) rest false

/-- Connector.handle_response_series (the optional response-count check
followed by the dispatch loop). -/
def handle_response_series (s : Connector) (now : Timestamp)
    (response_series : MCastResponseSeries) (task_description : Option String)
    (expected_response_count : Option Nat) : Connector × Bool :=
  let s :=
    match expected_response_count with
    | none => s
    | some expected =>
      let response_count := response_series.series.length
      let task_text :=
        match task_description with
        | none => ""
        | some td => " during " ++ td
      if response_count < expected then
        enqueue_status_message s "warning"
          ("Received a response series" ++ task_text ++
            ", but it contained fewer responses than expected.")
      else if response_count > expected then
        enqueue_status_message s "warning"
          ("Received a response series" ++ task_text ++
            ", but it contained more responses than expected.")
      else s
  handle_response_series_loop now response_series.responder s response_series.series true

/-- Connector.request_series_push.  The fresh uuid4 identifier is modelled by
the next_request_id counter; the ghost push_log records the pushed series. -/
def request_series_push (s : Connector) (connection_label : String)
    (request_series : MCastRequestSeries) : Connector × Nat :=
  let s :=
    if (dget s.request_series_by_label connection_label).isSome then s
    else
      let initialised := dset s.request_series_by_label connection_label []
      { s with request_series_by_label := initialised }
  let request_series_id := s.next_request_id
  let queued := (dget s.request_series_by_label connection_label).getD []
  ({ s with
      request_series_by_label :=
        dset s.request_series_by_label connection_label
          (queued ++ [(request_series, request_series_id)])
      response_series_by_id :=
        dset s.response_series_by_id request_series_id none
      next_request_id := request_series_id + 1
      push_log := s.push_log ++ [(connection_label, request_series.series)] },
    request_series_id)

/-- Connector.response_series_pop: raises ResponseSeriesNotExpected on an
unknown identifier, returns None while no response has arrived, and otherwise
removes and returns the response series. -/
def response_series_pop (s : Connector) (request_series_id : Nat) :
    PyM (Option MCastResponseSeries) :=
  match dget s.response_series_by_id request_series_id with
  | none => ⟨s, PyResult.raised "ResponseSeriesNotExpected"⟩
  | some none => ⟨s, PyResult.ok none⟩
  | some (some response_series) =>
    ⟨{ s with response_series_by_id := ddel s.response_series_by_id request_series_id },
      PyResult.ok (some response_series)⟩

/-- The pair-removal loop of Connector.ignore_request_and_response (remove the
first stored pair carrying the identifier, then stop). -/
def remove_first_pair (request_id : Nat) :
    List (MCastRequestSeries × Nat) → List (MCastRequestSeries × Nat)
  | [] => []
  | p :: rest =>
    if p.2 = request_id then rest else p :: remove_first_pair request_id rest

/-- Connector.ignore_request_and_response. -/
def ignore_request_and_response (s : Connector) (client_identifier : String)
    (request_id : Nat) : Connector :=
  let s :=
    match dget s.request_series_by_label client_identifier with
    | none => s
    | some pairs =>
      let trimmed :=
        dset s.request_series_by_label client_identifier (remove_first_pair request_id pairs)
      { s with request_series_by_label := trimmed }
  if (dget s.response_series_by_id request_id).isSome then
    { s with response_series_by_id := ddel s.response_series_by_id request_id }
  else s

/-- Connector.update_request. -/
def update_request (s : Connector) (now : Timestamp) (request_id : Nat)
    (task_description : Option String) (expected_response_count : Option Nat) :
    PyM (Bool × Option Nat) :=
  let popped := response_series_pop s request_id
  match popped.result with
  | PyResult.raised m => ⟨popped.state, PyResult.raised m⟩
  | PyResult.ok none => ⟨popped.state, PyResult.ok (false, some request_id)⟩
  | PyResult.ok (some response_series) =>
    let handled := handle_response_series popped.state now response_series
      task_description expected_response_count
    ⟨handled.1, PyResult.ok (handled.2, none)⟩

/-- Push a request series and record its id in the pending list, the pattern
self pending_request_ids.append(self.request_series_push(...)) used throughout
the startup orchestrator. -/
def push_and_pend (s : Connector) (label : String) (series : List MCastRequest) : Connector :=
  let pushed := request_series_push s label ⟨series⟩
  { pushed.1 with pending_request_ids := pushed.1.pending_request_ids ++ [pushed.2] }

def push_and_pend_fold (series : List MCastRequest) (s : Connector) :
    List String → Connector
  | [] => s
  | label :: rest => push_and_pend_fold series (push_and_pend s label series) rest

/-- The per-detector body of the GET_RESOLUTIONS branch: match the current
resolution against the calibrated resolutions.  The source constructs a
DetectorResolution record from the optional current resolution and compares it
against each listed entry; the comparison is modelled componentwise on the
option (it can only succeed when a current resolution was recorded). -/
def list_metadata_requests_fold (detector_label : String)
    (current : Option ImageResolution) (acc : List MCastRequest × Bool) :
    List DetectorResolution → List MCastRequest × Bool
  | [] => acc
  | dr :: rest =>
    if dr.detector_serial_identifier = detector_label ∧ some dr.image_resolution = current then
      list_metadata_requests_fold detector_label current
        (acc.1 ++ [MCastRequest.list_calibration_result_metadata detector_label dr.image_resolution],
          true) rest
    else
      list_metadata_requests_fold detector_label current acc rest

/-- One detector of the GET_RESOLUTIONS branch of
Connector.on_active_request_ids_processed.  Iterating calibrated_resolutions
raises when that field is still None (Python: iteration over None). -/
def get_resolutions_step (s : Connector) (detector_label : String) : PyM Unit :=
  match get_live_detector_connection s detector_label with
  | none =>
    ⟨enqueue_status_message s "error"
        ("Failed to find LiveDetectorConnection with label " ++ detector_label ++ "."),
      PyResult.ok ()⟩
  | some live =>
    match live.calibrated_resolutions with
    | none => ⟨s, PyResult.raised "TypeError: NoneType object is not iterable"⟩
    | some calibrated =>
      let built := list_metadata_requests_fold detector_label live.current_resolution
        ([], false) calibrated
      let s :=
        if built.2 then s
        else
          enqueue_status_message s "error"
            ("No calibration available for detector " ++ detector_label ++
              " at its current resolution. No intrinsics will be set.")
      ⟨push_and_pend s detector_label built.1, PyResult.ok ()⟩

def get_resolutions_fold (s : Connector) : List String → PyM Unit
  | [] => ⟨s, PyResult.ok ()⟩
  | label :: rest =>
    let r := get_resolutions_step s label
    match r.result with
    | PyResult.ok _ => get_resolutions_fold r.state rest
    | PyResult.raised m => ⟨r.state, PyResult.raised m⟩

/-- One detector of the LIST_INTRINSICS branch of
Connector.on_active_request_ids_processed. -/
def list_intrinsics_step (s : Connector) (detector_label : String) : Connector :=
  match get_live_detector_connection s detector_label with
  | none =>
    enqueue_status_message s "error"
      ("Failed to find LiveDetectorConnection with label " ++ detector_label ++ ".")
  | some live =>
    push_and_pend s detector_label
      [MCastRequest.get_calibration_result live.calibration_result_identifier]

def list_intrinsics_fold (s : Connector) : List String → Connector
  | [] => s
  | label :: rest => list_intrinsics_fold (list_intrinsics_step s label) rest

/-- The per-detector request accumulation of the SET_INTRINSICS submission: a
SetIntrinsicParameters request is appended for every connected detector whose
live record is found, carrying whatever current_intrinsic_parameters holds. -/
def set_intrinsics_requests_fold (s : Connector) (requests : List MCastRequest) :
    List String → Connector × List MCastRequest
  | [] => (s, requests)
  | d :: rest =>
    match get_live_detector_connection s d with
    | none =>
      set_intrinsics_requests_fold
        (enqueue_status_message s "error"
          ("Failed to find LiveDetectorConnection with label " ++ d ++ "."))
        requests rest
    | some live =>
      set_intrinsics_requests_fold s
        (requests ++ [MCastRequest.set_intrinsic_parameters d live.current_intrinsic_parameters])
        rest

def set_intrinsics_solver_fold (s : Connector) : List String → Connector
  | [] => s
  | p :: rest =>
    let built := set_intrinsics_requests_fold s [] (get_connected_detector_labels s)
    let requests := built.2 ++ [MCastRequest.start_pose_solver]
    set_intrinsics_solver_fold (push_and_pend built.1 p requests) rest

/-- Connector.on_active_request_ids_processed: the phase-advance hook of the
startup orchestrator. -/
def on_active_request_ids_processed (s : Connector) : PyM Unit :=
  if s.status = Status.STARTING then
    match s.startup_state with
    | StartupState.STARTING_CAPTURE =>
      let s := enqueue_status_message s "debug" "STARTING_CAPTURE complete"
      let s := push_and_pend_fold
        [MCastRequest.list_calibration_detector_resolutions,
          MCastRequest.get_capture_properties] s (get_connected_detector_labels s)
      ⟨{ s with startup_state := StartupState.GET_RESOLUTIONS }, PyResult.ok ()⟩
    | StartupState.GET_RESOLUTIONS =>
      let s := enqueue_status_message s "debug" "GET_RESOLUTIONS complete"
      let r := get_resolutions_fold s (get_connected_detector_labels s)
      match r.result with
      | PyResult.raised m => ⟨r.state, PyResult.raised m⟩
      | PyResult.ok _ =>
        ⟨{ r.state with startup_state := StartupState.LIST_INTRINSICS }, PyResult.ok ()⟩
    | StartupState.LIST_INTRINSICS =>
      let s := enqueue_status_message s "debug" "LIST_INTRINSICS complete"
      let s := list_intrinsics_fold s (get_connected_detector_labels s)
      ⟨{ s with startup_state := StartupState.GET_INTRINSICS }, PyResult.ok ()⟩
    | StartupState.GET_INTRINSICS =>
      let s := enqueue_status_message s "debug" "GET_INTRINSICS complete"
      if s.startup_mode = DETECTING_ONLY then
        ⟨{ s with startup_state := StartupState.INITIAL, status := Status.RUNNING },
          PyResult.ok ()⟩
      else
        let s := set_intrinsics_solver_fold s (get_connected_pose_solver_labels s)
        ⟨{ s with startup_state := StartupState.SET_INTRINSICS }, PyResult.ok ()⟩
    | StartupState.SET_INTRINSICS =>
      let s := enqueue_status_message s "debug" "SET_INTRINSICS complete"
      ⟨{ s with startup_state := StartupState.INITIAL, status := Status.RUNNING },
        PyResult.ok ()⟩
    | _ => ⟨s, PyResult.ok ()⟩
  else if s.status = Status.STOPPING then
    ⟨{ s with status := Status.STOPPED }, PyResult.ok ()⟩
  else ⟨s, PyResult.ok ()⟩

/-- Connector.start_tracking. -/
def start_tracking (s : Connector) (mode : String) : PyM Unit :=
  if mode ≠ DETECTING_ONLY ∧ mode ≠ DETECTING_AND_SOLVING then
    ⟨s, PyResult.raised ("Unexpected mode " ++ mode ++ ".")⟩
  else
    let s := { s with startup_mode := mode }
    let s := push_and_pend_fold
      [MCastRequest.start_capture, MCastRequest.list_calibration_detector_resolutions]
      s (get_connected_detector_labels s)
    ⟨{ s with startup_state := StartupState.STARTING_CAPTURE, status := Status.STARTING },
      PyResult.ok ()⟩

/-- One detector of Connector.stop_tracking. -/
def stop_tracking_detector_step (s : Connector) (detector_label : String) : Connector :=
  match get_live_detector_connection s detector_label with
  | none =>
    enqueue_status_message s "error"
      ("Failed to find LiveDetectorConnection with label " ++ detector_label ++ ".")
  | some live =>
    let s :=
      match live.request_id with
      | some rid => { s with pending_request_ids := s.pending_request_ids ++ [rid] }
      | none => s
    push_and_pend s detector_label [MCastRequest.stop_capture]

def stop_tracking_detector_fold (s : Connector) : List String → Connector
  | [] => s
  | label :: rest => stop_tracking_detector_fold (stop_tracking_detector_step s label) rest

/-- One pose solver of Connector.stop_tracking. -/
def stop_tracking_solver_step (s : Connector) (pose_solver_label : String) : Connector :=
  match get_live_pose_solver_connection s pose_solver_label with
  | none =>
    enqueue_status_message s "error"
      ("Failed to find LivePoseSolverConnection with label " ++ pose_solver_label ++ ".")
  | some live =>
    let s :=
      match live.request_id with
      | some rid => { s with pending_request_ids := s.pending_request_ids ++ [rid] }
      | none => s
    push_and_pend s pose_solver_label [MCastRequest.stop_pose_solver]

def stop_tracking_solver_fold (s : Connector) : List String → Connector
  | [] => s
  | label :: rest => stop_tracking_solver_fold (stop_tracking_solver_step s label) rest

/-- Connector.stop_tracking. -/
def stop_tracking (s : Connector) : Connector :=
  let s := stop_tracking_detector_fold s (get_connected_detector_labels s)
  let s := stop_tracking_solver_fold s (get_connected_pose_solver_labels s)
  { s with status := Status.STOPPING }

/-- Write the request_id slot of a detector's live record back (the Python code
assigns through the live object held in the _connections dict). -/
def set_detector_request_id (s : Connector) (label : String) (rid : Option Nat) : Connector :=
  match get_live_detector_connection s label with
  | none => s
  | some d => set_live_detector_data s label { d with request_id := rid }

def set_pose_solver_request_id (s : Connector) (label : String) (rid : Option Nat) : Connector :=
  match get_live_pose_solver_connection s label with
  | none => s
  | some p => set_live_pose_solver_data s label { p with request_id := rid }

/-- One detector of the Running branch of Connector.update_loop: claim any
completed marker-snapshot poll, then start a fresh one. -/
def update_loop_detector_step (now : Timestamp) (s : Connector) (detector_label : String) :
    PyM Unit :=
  match get_live_detector_connection s detector_label with
  | none =>
    ⟨enqueue_status_message s "error"
        ("Failed to find LiveDetectorConnection with label " ++ detector_label ++ "."),
      PyResult.ok ()⟩
  | some live =>
    match live.request_id with
    | some rid =>
      let r := update_request s now rid none none
      match r.result with
      | PyResult.raised m => ⟨r.state, PyResult.raised m⟩
      | PyResult.ok (_, new_rid) =>
        let s1 := set_detector_request_id r.state detector_label new_rid
        match new_rid with
        | some _ => ⟨s1, PyResult.ok ()⟩
        | none =>
          let pushed := request_series_push s1 detector_label
            ⟨[MCastRequest.get_marker_snapshots]⟩
          ⟨set_detector_request_id pushed.1 detector_label (some pushed.2), PyResult.ok ()⟩
    | none =>
      let pushed := request_series_push s detector_label ⟨[MCastRequest.get_marker_snapshots]⟩
      ⟨set_detector_request_id pushed.1 detector_label (some pushed.2), PyResult.ok ()⟩

/-- The request-building loop of the pose-solver branch of Connector.update_loop:
append an AddMarkerCorners request for every connected detector whose frame
timestamp is newer than the per-detector last-seen timestamp, updating that map
as it goes.  A missing frame raises (the source would call a method on None). -/
def solver_build_fold (pose_solver_label : String) (s : Connector)
    (requests : List MCastRequest) : List String → PyM (List MCastRequest)
  | [] => ⟨s, PyResult.ok requests⟩
  | d :: rest =>
    match get_live_detector_frame s d with
    | none => ⟨s, PyResult.raised "AttributeError: NoneType has no attribute timestamp_utc"⟩
    | some frame =>
      let ts := frame.timestamp_utc
      match get_live_pose_solver_connection s pose_solver_label with
      | none => solver_build_fold pose_solver_label s requests rest
      | some lp =>
        let current_is_new : Bool :=
          match dget lp.detector_timestamps d with
          | some old => decide (old < ts)
          | none => true
        if current_is_new then
          let s1 := set_live_pose_solver_data s pose_solver_label
            { lp with detector_timestamps := dset lp.detector_timestamps d ts }
          solver_build_fold pose_solver_label s1
            (requests ++
              [MCastRequest.add_marker_corners frame.detected_marker_snapshots
                frame.rejected_marker_snapshots d ts]) rest
        else
          solver_build_fold pose_solver_label s requests rest

/-- One pose solver of the Running branch of Connector.update_loop. -/
def update_loop_solver_step (now : Timestamp) (s : Connector) (pose_solver_label : String) :
    PyM Unit :=
  match get_live_pose_solver_connection s pose_solver_label with
  | none =>
    ⟨enqueue_status_message s "error"
        ("Failed to find LivePoseSolverConnection with label " ++ pose_solver_label ++ "."),
      PyResult.ok ()⟩
  | some live =>
    let claimed : PyM (Option Nat) :=
      match live.request_id with
      | some rid =>
        let r := update_request s now rid none none
        match r.result with
        | PyResult.raised m => ⟨r.state, PyResult.raised m⟩
        | PyResult.ok (_, new_rid) =>
          ⟨set_pose_solver_request_id r.state pose_solver_label new_rid, PyResult.ok new_rid⟩
      | none => ⟨s, PyResult.ok none⟩
    match claimed.result with
    | PyResult.raised m => ⟨claimed.state, PyResult.raised m⟩
    | PyResult.ok (some _) => ⟨claimed.state, PyResult.ok ()⟩
    | PyResult.ok none =>
      let s1 := claimed.state
      let built := solver_build_fold pose_solver_label s1 []
        (get_connected_detector_labels s1)
      match built.result with
      | PyResult.raised m => ⟨built.state, PyResult.raised m⟩
      | PyResult.ok solver_request_list =>
        let pushed := request_series_push built.state pose_solver_label
          ⟨solver_request_list ++ [MCastRequest.get_poses]⟩
        ⟨set_pose_solver_request_id pushed.1 pose_solver_label (some pushed.2),
          PyResult.ok ()⟩

def py_fold (f : Connector → String → PyM Unit) : Connector → List String → PyM Unit
  | s, [] => ⟨s, PyResult.ok ()⟩
  | s, x :: xs =>
    let r := f s x
    match r.result with
    | PyResult.ok _ => py_fold f r.state xs
    | PyResult.raised m => ⟨r.state, PyResult.raised m⟩

/-- The pending-id drain of Connector.update_loop: poll every pending id and
collect the completed ones. -/
def drain_pending_fold (now : Timestamp) :
    Connector → List Nat → List Nat → PyM (List Nat)
  | s, [], completed => ⟨s, PyResult.ok completed⟩
  | s, rid :: rest, completed =>
    let r := update_request s now rid none none
    match r.result with
    | PyResult.raised m => ⟨r.state, PyResult.raised m⟩
    | PyResult.ok (_, remaining) =>
      match remaining with
      | none => drain_pending_fold now r.state rest (completed ++ [rid])
      | some _ => drain_pending_fold now r.state rest completed

/-- The Running branch of Connector.update_loop: per-detector polls followed by
per-pose-solver batching. -/
def update_loop_relay_phase (s : Connector) (now : Timestamp) : PyM Unit :=
  if is_running s then
    let r := py_fold (update_loop_detector_step now) s (get_connected_detector_labels s)
    match r.result with
    | PyResult.raised _ => r
    | PyResult.ok _ =>
      py_fold (update_loop_solver_step now) r.state (get_connected_pose_solver_labels r.state)
  else ⟨s, PyResult.ok ()⟩

/-- The pending-id drain of Connector.update_loop with the phase-advance hook. -/
def update_loop_drain_phase (now : Timestamp) (s1 : Connector) : PyM Unit :=
  if s1.pending_request_ids.length > 0 then
    let drained := drain_pending_fold now s1 s1.pending_request_ids []
    match drained.result with
    | PyResult.raised m => ⟨drained.state, PyResult.raised m⟩
    | PyResult.ok completed =>
      let s2 := drained.state
      let remaining := completed.foldl (fun l rid => l.erase rid) s2.pending_request_ids
      let s3 := { s2 with pending_request_ids := remaining }
      if remaining.length = 0 then on_active_request_ids_processed s3
      else ⟨s3, PyResult.ok ()⟩
  else ⟨s1, PyResult.ok ()⟩

/-- Connector.update_loop (one Tick). -/
def update_loop (s : Connector) (now : Timestamp) : PyM Unit :=
  let phase1 : PyM Unit := update_loop_relay_phase s now
  match phase1.result with
  | PyResult.raised m => ⟨phase1.state, PyResult.raised m⟩
  | PyResult.ok _ => update_loop_drain_phase now phase1.state

/-- The outcome of the per-tick I/O for one peer, supplied by the environment:
whether a connection attempt succeeds, the reply to each queued request series
in order, and the status messages drained from the peer. -/
structure WireOracle where
  connect_ok : Bool
  responses : List MCastResponseSeries
  drained_status_messages : List StatusMessage
deriving DecidableEq

/-- Post the replies for the queued request series of a connected peer into the
inbound map, stamping responder with the peer's label. -/
def post_responses (label : String) :
    Connector → List ((MCastRequestSeries × Nat) × MCastResponseSeries) → Connector
  | s, [] => s
  | s, (pair, resp) :: rest =>
    let stamped := dset s.response_series_by_id pair.2 (some { resp with responder := label })
    post_responses label { s with response_series_by_id := stamped } rest

/-- The Connected branch of Connector.do_update_frame_for_connection: dispatch
the queued request series and post their replies, then drain the peer's status
messages. -/
def frame_connected_step (s : Connector) (label : String) (w : WireOracle) : Connector :=
  let s :=
    match dget s.request_series_by_label label with
    | none => s
    | some pairs =>
      let posted := post_responses label s (pairs.zip w.responses)
      { posted with request_series_by_label := ddel posted.request_series_by_label label }
  { s with status_messages := s.status_messages ++ w.drained_status_messages }

/-- The Connecting branch (and fall-through to the Connected branch) of
Connector.do_update_frame_for_connection. -/
def frame_connecting_step (s : Connector) (label : String) (now : Timestamp)
    (w : WireOracle) (lc : LiveConnection) : Connector :=
  if lc.status = "connecting" then
    if now ≥ lc.next_attempt_timestamp_utc then
      let attempt_count := lc.attempt_count + 1
      if w.connect_ok then
        let s := add_status_message s "info" ("Connected to " ++ label ++ ".")
        let s := modify_live s label (fun l =>
          { l with socket := true, status := "connected", attempt_count := 0 })
        frame_connected_step s label w
      else if attempt_count ≥ ATTEMPT_COUNT_MAXIMUM then
        let s := add_status_message s "error"
          ("Failed to connect to " ++ label ++ ". Connection is being aborted.")
        modify_live s label (fun l =>
          { l with attempt_count := attempt_count, status := "aborted" })
      else
        let s := add_status_message s "warning"
          ("Failed to connect to " ++ label ++ ". Will retry.")
        modify_live s label (fun l =>
          { l with attempt_count := attempt_count,
                   next_attempt_timestamp_utc := now + ATTEMPT_TIME_GAP_SECONDS })
    else s
  else if lc.status = "connected" then
    frame_connected_step s label w
  else s

/-- Connector.do_update_frame_for_connection (one peer of one Tick). -/
def do_update_frame_for_connection (s : Connector) (label : String) (now : Timestamp)
    (w : WireOracle) : Connector :=
  match dget s.connections label with
  | none => s
  | some conn =>
    let lc := conn.live_connection
    if lc.status = "disconnected" ∨ lc.status = "aborted" then s
    else if lc.status = "disconnecting" then
      modify_live s label (fun l => { l with socket := false, status := "disconnected" })
    else
      frame_connecting_step s label now w lc

/-- The public operations and tick steps of the Connector, as a transition
alphabet for stating reachable-state invariants. -/
inductive Event where
  | ev_add_connection (addr : ComponentAddress)
  | ev_remove_connection (label : String)
  | ev_begin_connecting (label : String)
  | ev_begin_disconnecting (label : String)
  | ev_start_tracking (mode : String)
  | ev_stop_tracking
  | ev_update_loop (now : Timestamp)
  | ev_update_frame (label : String) (now : Timestamp) (w : WireOracle)
  | ev_ignore_request (label : String) (request_id : Nat)
deriving DecidableEq

/-- Apply one event.  Operations that raise leave the state as it was at the
raise point (Python exceptions do not roll mutations back). -/
def apply_event (s : Connector) : Event → Connector
  | Event.ev_add_connection addr => (add_connection s addr).state
  | Event.ev_remove_connection l => (remove_connection s l).state
  | Event.ev_begin_connecting l => begin_connecting s l
  | Event.ev_begin_disconnecting l => begin_disconnecting s l
  | Event.ev_start_tracking m => (start_tracking s m).state
  | Event.ev_stop_tracking => stop_tracking s
  | Event.ev_update_loop now => (update_loop s now).state
  | Event.ev_update_frame l now w => do_update_frame_for_connection s l now w
  | Event.ev_ignore_request l rid => ignore_request_and_response s l rid

def run_events (s : Connector) (events : List Event) : Connector :=
  events.foldl apply_event s

/-! Auxiliary lemmas about the association-list primitives. -/

theorem dget_eq_none_of_not_mem {κ α : Type} [DecidableEq κ] (l : List (κ × α)) (k : κ)
    (h : k ∉ l.map Prod.fst) : dget l k = none := by
  induction l with
  | nil => rfl
  | cons p rest ih =>
    obtain ⟨k', v⟩ := p
    simp only [List.map_cons, List.mem_cons] at h
    push_neg at h
    have hne : ¬(k' = k) := fun hk => h.1 hk.symm
    rw [dget_cons, if_neg hne]
    exact ih h.2

theorem dget_ddel_self_of_nodup {κ α : Type} [DecidableEq κ] (l : List (κ × α)) (k : κ)
    (h : (l.map Prod.fst).Nodup) : dget (ddel l k) k = none := by
  induction l with
  | nil => rfl
  | cons p rest ih =>
    obtain ⟨k', v⟩ := p
    simp only [List.map_cons, List.nodup_cons] at h
    by_cases hk : k' = k
    · subst hk
      simp only [ddel, if_pos rfl]
      exact dget_eq_none_of_not_mem rest k' h.1
    · simp only [ddel, if_neg hk, dget_cons, if_neg hk]
      exact ih h.2

/-! Claim theorems. -/

/-- C1 (code_bug): the spec requires the stored calibration_result_identifier to
belong to an entry of maximal timestamp_utc, but the selection loop of
handle_response_list_calibration_result_metadata never reassigns its running
maximum (newest_timestamp stays datetime.min), so it stores the identifier of
the last entry whose timestamp exceeds datetime.min.  On the list
[(identifier "a", timestamp 5), (identifier "b", timestamp 3)] the code stores
"b", yet the unique entry of maximal timestamp is "a". -/
theorem C1_newest_calibration_selection_bug :
    (get_live_detector_connection
        (handle_response_list_calibration_result_metadata
          (add_connection Connector.init ⟨"d1", "detector", "1.2.3.4", 8001⟩).state
          [⟨"a", 5⟩, ⟨"b", 3⟩] "d1")
        "d1").map (fun d => d.calibration_result_identifier) = some (some "b")
    ∧ (([⟨"a", 5⟩, ⟨"b", 3⟩] : List CalibrationResultMetadata).filter
        (fun m => m.timestamp_utc = 5)).map (fun m => m.identifier) = ["a"]
    ∧ (([⟨"a", 5⟩, ⟨"b", 3⟩] : List CalibrationResultMetadata).map
        (fun m => m.timestamp_utc)).maximum = some 5 := by
  decide

/-- C3 (code_bug): the spec says an error response inside a series is logged at
error severity, does not abort its siblings, and makes the series handler
report non-success regardless of the error's position.  The logging and the
continuation hold, but the success flag is reassigned to True by later
recognised responses, so a series [error, get_poses] returns True while the
same error alone returns False: the position of the error decides the result,
contradicting the claim. -/
theorem C3_error_position_dependent_success :
    (handle_response_series Connector.init 0
        ⟨[MCastResponse.error "boom", MCastResponse.get_poses [] []], "s1"⟩ none none).2 = true
    ∧ (handle_response_series Connector.init 0
        ⟨[MCastResponse.error "boom"], "s1"⟩ none none).2 = false
    ∧ (handle_response_series Connector.init 0
        ⟨[MCastResponse.error "boom", MCastResponse.get_poses [] []], "s1"⟩ none
        none).1.source_status_messages =
      [⟨"error", "Received error: boom"⟩,
        ⟨"error", "Failed to find LivePoseSolverConnection with label s1."⟩] := by
  decide

/-- C8 (code_bug): get_live_detector_frame's own docstring (and the claim)
promise None when the detector has not been started or has produced no frame,
but for a freshly added, never started detector the code returns a frame built
from the reset fields: empty snapshot lists stamped with datetime.min. -/
theorem C8_frame_returned_for_unstarted_detector :
    get_live_detector_frame
        (add_connection Connector.init ⟨"d1", "detector", "1.2.3.4", 8001⟩).state "d1"
      = some ⟨[], [], datetime_min⟩ := by
  decide

/-- C9 (confirmed): for a label absent from the peer map, begin_connecting and
begin_disconnecting return normally (they are total functions here, mirroring
that the source merely enqueues an error status message and returns), leaving
the peer map — hence every existing peer's live state — unchanged; by contrast
add_connection raises on a duplicate label and remove_connection raises on a
missing one, in both cases leaving the state unchanged. -/
theorem C9_unknown_label_is_graceful (s : Connector) (label : String)
    (h : dget s.connections label = none) :
    (begin_connecting s label).connections = s.connections
    ∧ (begin_connecting s label).status_messages
        = s.status_messages ++ [⟨"error", "label " ++ label ++ " is not in list. Returning."⟩]
    ∧ (begin_disconnecting s label).connections = s.connections
    ∧ (begin_disconnecting s label).status_messages
        = s.status_messages ++ [⟨"error", "label " ++ label ++ " is not in list. Returning."⟩]
    ∧ (remove_connection s label).result
        = PyResult.raised ("Failed to find connection associated with " ++ label ++ ".")
    ∧ (remove_connection s label).state = s
    ∧ (∀ addr : ComponentAddress, ∀ c, dget s.connections addr.label = some c →
        (add_connection s addr).result
          = PyResult.raised ("Connection associated with " ++ addr.label ++ " already exists.")
        ∧ (add_connection s addr).state = s) := by
  refine ⟨?_, ?_, ?_, ?_, ?_, ?_, ?_⟩
  · simp [begin_connecting, h, add_status_message]
  · simp [begin_connecting, h, add_status_message]
  · simp [begin_disconnecting, h, add_status_message]
  · simp [begin_disconnecting, h, add_status_message]
  · simp [remove_connection, h]
  · simp [remove_connection, h]
  · intro addr c hc
    constructor
    · simp [add_connection, hc]
    · simp [add_connection, hc]

/-- Witness for C9 at a concrete state holding one peer "a" and the absent
label "x". -/
theorem C9_unknown_label_is_graceful_witness :
    letI conn : Connection :=
      ⟨⟨"a", "detector", "1.2.3.4", 8001⟩,
        fresh_live_connection (LiveRoleData.detector reset_live_detector_data)⟩
    letI s : Connector := { Connector.init with connections := [("a", conn)] }
    (begin_connecting s "x").connections = s.connections
    ∧ (begin_connecting s "x").status_messages
        = s.status_messages ++ [⟨"error", "label " ++ "x" ++ " is not in list. Returning."⟩] := by
  have h := C9_unknown_label_is_graceful
    { Connector.init with connections :=
        [("a", ⟨⟨"a", "detector", "1.2.3.4", 8001⟩,
          fresh_live_connection (LiveRoleData.detector reset_live_detector_data)⟩)] }
    "x" (by decide)
  exact ⟨h.1, h.2.1⟩

/-- C10 (confirmed): for any mode string outside the two StartupMode values,
start_tracking raises ValueError as its first action, so the state at the
raise equals the state before the call: status, startup state, startup mode,
the pending-request-id list and both correlator maps are untouched. -/
theorem C10_start_tracking_invalid_mode (s : Connector) (mode : String)
    (h1 : mode ≠ DETECTING_ONLY) (h2 : mode ≠ DETECTING_AND_SOLVING) :
    (start_tracking s mode).result = PyResult.raised ("Unexpected mode " ++ mode ++ ".")
    ∧ (start_tracking s mode).state = s := by
  constructor
  · simp [start_tracking, h1, h2]
  · simp [start_tracking, h1, h2]

/-- Witness for C10: the mode string "bogus" is rejected with the state intact. -/
theorem C10_start_tracking_invalid_mode_witness :
    (start_tracking Connector.init "bogus").result
        = PyResult.raised ("Unexpected mode " ++ "bogus" ++ ".")
    ∧ (start_tracking Connector.init "bogus").state = Connector.init := by
  exact C10_start_tracking_invalid_mode Connector.init "bogus" (by decide) (by decide)

/-- C2 (counterexample): a connected detector d1 whose current_intrinsic_parameters
is still None (no calibration matched its resolution) nevertheless has a
SetIntrinsicParameters request submitted on its behalf to the connected pose
solver s1 during the SET_INTRINSICS submission, refuting the claim that such a
request is sent only for detectors that have intrinsic parameters. -/
theorem C2_set_intrinsics_sent_without_intrinsics :
    letI detector_conn : Connection :=
      ⟨⟨"d1", "detector", "1.2.3.4", 8001⟩,
        { status := "connected", attempt_count := 0, next_attempt_timestamp_utc := 0,
          socket := true, role_data := LiveRoleData.detector reset_live_detector_data }⟩
    letI solver_conn : Connection :=
      ⟨⟨"s1", "pose_solver", "1.2.3.5", 8001⟩,
        { status := "connected", attempt_count := 0, next_attempt_timestamp_utc := 0,
          socket := true, role_data := LiveRoleData.pose_solver reset_live_pose_solver_data }⟩
    letI s : Connector :=
      { Connector.init with
          status := Status.STARTING
          startup_state := StartupState.GET_INTRINSICS
          startup_mode := DETECTING_AND_SOLVING
          connections := [("d1", detector_conn), ("s1", solver_conn)] }
    (get_live_detector_connection s "d1").map (fun d => d.current_intrinsic_parameters)
        = some none
    ∧ dget (on_active_request_ids_processed s).state.request_series_by_label "s1"
        = some [(⟨[MCastRequest.set_intrinsic_parameters "d1" none,
                    MCastRequest.start_pose_solver]⟩, 0)] := by
  decide

/-- The request series that the SET_INTRINSICS submission builds for every
connected pose solver: one SetIntrinsicParameters request per connected
detector whose live record exists — carrying whatever that detector's
current_intrinsic_parameters holds, possibly nothing — followed by
StartPoseSolver. -/
def set_intrinsics_series (s : Connector) : List MCastRequest :=
  ((get_connected_detector_labels s).filterMap (fun d =>
    (get_live_detector_connection s d).map (fun live =>
      MCastRequest.set_intrinsic_parameters d live.current_intrinsic_parameters)))
    ++ [MCastRequest.start_pose_solver]

theorem get_live_detector_connection_congr {s t : Connector} (d : String)
    (h : s.connections = t.connections) :
    get_live_detector_connection s d = get_live_detector_connection t d := by
  simp [get_live_detector_connection, h]

theorem get_connected_role_labels_congr {s t : Connector} (role : String)
    (h : s.connections = t.connections) :
    get_connected_role_labels s role = get_connected_role_labels t role := by
  simp [get_connected_role_labels, h]

theorem set_intrinsics_series_congr {s t : Connector} (h : s.connections = t.connections) :
    set_intrinsics_series s = set_intrinsics_series t := by
  unfold set_intrinsics_series
  rw [get_connected_detector_labels, get_connected_role_labels_congr _ h]
  congr 1
  apply List.filterMap_congr
  intro d _
  rw [get_live_detector_connection_congr d h]

@[simp] theorem enqueue_connections (s : Connector) (sev m : String) :
    (enqueue_status_message s sev m).connections = s.connections := rfl

@[simp] theorem enqueue_request_map (s : Connector) (sev m : String) :
    (enqueue_status_message s sev m).request_series_by_label = s.request_series_by_label := rfl

@[simp] theorem enqueue_status (s : Connector) (sev m : String) :
    (enqueue_status_message s sev m).status = s.status := rfl

@[simp] theorem enqueue_startup_mode (s : Connector) (sev m : String) :
    (enqueue_status_message s sev m).startup_mode = s.startup_mode := rfl

theorem request_series_push_connections (s : Connector) (l : String)
    (series : MCastRequestSeries) :
    (request_series_push s l series).1.connections = s.connections := by
  unfold request_series_push
  by_cases h : (dget s.request_series_by_label l).isSome <;> simp [h]

theorem request_series_push_map (s : Connector) (l : String) (series : MCastRequestSeries)
    (p : String) :
    dget (request_series_push s l series).1.request_series_by_label p
      = if l = p then
          some ((dget s.request_series_by_label p).getD [] ++ [(series, s.next_request_id)])
        else dget s.request_series_by_label p := by
  by_cases hp : l = p
  · subst hp
    by_cases h : (dget s.request_series_by_label l).isSome
    · obtain ⟨q, hq⟩ := Option.isSome_iff_exists.mp h
      simp [request_series_push, h, hq, dget_dset_self]
    · have hn : dget s.request_series_by_label l = none :=
        Option.not_isSome_iff_eq_none.mp h
      simp [request_series_push, h, hn, dget_dset_self]
  · by_cases h : (dget s.request_series_by_label l).isSome
    · simp [request_series_push, h, if_neg hp, dget_dset_other _ _ _ _ hp]
    · simp [request_series_push, h, if_neg hp, dget_dset_other _ _ _ _ hp]

theorem push_and_pend_connections (s : Connector) (l : String) (series : List MCastRequest) :
    (push_and_pend s l series).connections = s.connections := by
  unfold push_and_pend
  simp [request_series_push_connections]

theorem push_and_pend_map (s : Connector) (l : String) (series : List MCastRequest)
    (p : String) :
    dget (push_and_pend s l series).request_series_by_label p
      = if l = p then
          some ((dget s.request_series_by_label p).getD [] ++ [(⟨series⟩, s.next_request_id)])
        else dget s.request_series_by_label p := by
  unfold push_and_pend
  have := request_series_push_map s l ⟨series⟩ p
  simpa using this

theorem set_intrinsics_requests_fold_spec (L : List String) (s : Connector)
    (acc : List MCastRequest) :
    (set_intrinsics_requests_fold s acc L).1.connections = s.connections
    ∧ (set_intrinsics_requests_fold s acc L).1.request_series_by_label
        = s.request_series_by_label
    ∧ (set_intrinsics_requests_fold s acc L).1.next_request_id = s.next_request_id
    ∧ (set_intrinsics_requests_fold s acc L).2
        = acc ++ L.filterMap (fun d =>
            (get_live_detector_connection s d).map (fun live =>
              MCastRequest.set_intrinsic_parameters d live.current_intrinsic_parameters)) := by
  induction L generalizing s acc with
  | nil => simp [set_intrinsics_requests_fold]
  | cons d rest ih =>
    unfold set_intrinsics_requests_fold
    cases hd : get_live_detector_connection s d with
    | none =>
      have hconn : (enqueue_status_message s "error"
          ("Failed to find LiveDetectorConnection with label " ++ d ++ ".")).connections
            = s.connections := rfl
      have ih' := ih (enqueue_status_message s "error"
        ("Failed to find LiveDetectorConnection with label " ++ d ++ ".")) acc
      refine ⟨by rw [ih'.1]; rfl, by rw [ih'.2.1]; rfl, by rw [ih'.2.2.1]; rfl, ?_⟩
      rw [ih'.2.2.2]
      simp only [List.filterMap_cons, hd, Option.map_none]
      congr 1
    | some live =>
      have ih' := ih s
        (acc ++ [MCastRequest.set_intrinsic_parameters d live.current_intrinsic_parameters])
      refine ⟨ih'.1, ih'.2.1, ih'.2.2.1, ?_⟩
      rw [ih'.2.2.2]
      simp [List.filterMap_cons, hd]

theorem set_intrinsics_solver_fold_spec (L : List String) (s : Connector)
    (hL : L.Nodup) :
    (set_intrinsics_solver_fold s L).connections = s.connections
    ∧ (∀ p, p ∉ L →
        dget (set_intrinsics_solver_fold s L).request_series_by_label p
          = dget s.request_series_by_label p)
    ∧ (∀ p ∈ L, ∃ id,
        dget (set_intrinsics_solver_fold s L).request_series_by_label p
          = some ((dget s.request_series_by_label p).getD []
              ++ [(⟨set_intrinsics_series s⟩, id)])) := by
  induction L generalizing s with
  | nil =>
    refine ⟨rfl, fun p _ => rfl, fun p hp => absurd hp (List.not_mem_nil p)⟩
  | cons q rest ih =>
    have hq : q ∉ rest := (List.nodup_cons.mp hL).1
    have hrest : rest.Nodup := (List.nodup_cons.mp hL).2
    unfold set_intrinsics_solver_fold
    set built := set_intrinsics_requests_fold s [] (get_connected_detector_labels s) with hbuilt
    have hspec := set_intrinsics_requests_fold_spec (get_connected_detector_labels s) s []
    rw [← hbuilt] at hspec
    set s1 := push_and_pend built.1 q (built.2 ++ [MCastRequest.start_pose_solver]) with hs1
    have hs1conn : s1.connections = s.connections := by
      rw [hs1, push_and_pend_connections, hspec.1]
    have hs1map : ∀ p, dget s1.request_series_by_label p
        = if q = p then
            some ((dget s.request_series_by_label p).getD []
              ++ [(⟨set_intrinsics_series s⟩, built.1.next_request_id)])
          else dget s.request_series_by_label p := by
      intro p
      rw [hs1, push_and_pend_map, hspec.2.1]
      have hser : built.2 ++ [MCastRequest.start_pose_solver] = set_intrinsics_series s := by
        rw [hspec.2.2.2]
        simp [set_intrinsics_series]
      rw [hser]
    have ih' := ih s1 hrest
    have hseries : set_intrinsics_series s1 = set_intrinsics_series s :=
      set_intrinsics_series_congr hs1conn
    refine ⟨by rw [ih'.1, hs1conn], ?_, ?_⟩
    · intro p hp
      have hpq : q ≠ p := fun hqp => hp (hqp ▸ List.mem_cons_self q rest)
      have hpr : p ∉ rest := fun hr => hp (List.mem_cons_of_mem q hr)
      rw [ih'.2.1 p hpr, hs1map p, if_neg hpq]
    · intro p hp
      rcases List.mem_cons.mp hp with hpq | hpr
      · subst hpq
        refine ⟨built.1.next_request_id, ?_⟩
        rw [ih'.2.1 p hq, hs1map p, if_pos rfl]
      · obtain ⟨id, hid⟩ := ih'.2.2 p hpr
        have hpq : q ≠ p := fun hqp => hq (hqp ▸ hpr)
        refine ⟨id, ?_⟩
        rw [hid, hs1map p, if_neg hpq, hseries]

/-- C2 (corrected): in the SET_INTRINSICS submission (mode DetectingAndSolving)
the series submitted to every connected pose solver contains a
SetIntrinsicParameters request for every connected detector whose live record
exists — including detectors that have no intrinsic parameters, whose request
carries none — followed by StartPoseSolver; no intrinsics filter is applied. -/
theorem C2_set_intrinsics_series_amended (s : Connector)
    (h1 : s.status = Status.STARTING)
    (h2 : s.startup_state = StartupState.GET_INTRINSICS)
    (h3 : s.startup_mode = DETECTING_AND_SOLVING)
    (hnodup : (get_connected_pose_solver_labels s).Nodup) :
    ∀ p ∈ get_connected_pose_solver_labels s, ∃ id,
      dget (on_active_request_ids_processed s).state.request_series_by_label p
        = some ((dget s.request_series_by_label p).getD []
            ++ [(⟨set_intrinsics_series s⟩, id)]) := by
  intro p hp
  have hmode : ¬(s.startup_mode = DETECTING_ONLY) := by
    rw [h3]; decide
  set s' := enqueue_status_message s "debug" "GET_INTRINSICS complete" with hs'
  have hs'conn : s'.connections = s.connections := rfl
  have hlabels : get_connected_pose_solver_labels s' = get_connected_pose_solver_labels s := by
    unfold get_connected_pose_solver_labels
    exact get_connected_role_labels_congr _ hs'conn
  have hcond : ¬(s'.startup_mode = DETECTING_ONLY) := by
    rw [hs', enqueue_startup_mode]; exact hmode
  have hstate : (on_active_request_ids_processed s).state
      = { set_intrinsics_solver_fold s' (get_connected_pose_solver_labels s') with
            startup_state := StartupState.SET_INTRINSICS } := by
    unfold on_active_request_ids_processed
    rw [if_pos h1, h2]
    show (if s'.startup_mode = DETECTING_ONLY then _ else _ : PyM Unit).state = _
    rw [if_neg hcond]
  have hspec := set_intrinsics_solver_fold_spec (get_connected_pose_solver_labels s') s'
    (hlabels ▸ hnodup)
  obtain ⟨id, hid⟩ := hspec.2.2 p (hlabels ▸ hp)
  refine ⟨id, ?_⟩
  rw [hstate]
  show dget (set_intrinsics_solver_fold s' (get_connected_pose_solver_labels s')).request_series_by_label p = _
  rw [hid]
  have : set_intrinsics_series s' = set_intrinsics_series s :=
    set_intrinsics_series_congr hs'conn
  rw [this]
  rfl

/-- Witness for the amended C2 at the counterexample configuration: the series
pushed to pose solver s1 is exactly the set_intrinsics_series of the state. -/
theorem C2_set_intrinsics_series_amended_witness :
    letI detector_conn : Connection :=
      ⟨⟨"d1", "detector", "1.2.3.4", 8001⟩,
        { status := "connected", attempt_count := 0, next_attempt_timestamp_utc := 0,
          socket := true, role_data := LiveRoleData.detector reset_live_detector_data }⟩
    letI solver_conn : Connection :=
      ⟨⟨"s1", "pose_solver", "1.2.3.5", 8001⟩,
        { status := "connected", attempt_count := 0, next_attempt_timestamp_utc := 0,
          socket := true, role_data := LiveRoleData.pose_solver reset_live_pose_solver_data }⟩
    letI s : Connector :=
      { Connector.init with
          status := Status.STARTING
          startup_state := StartupState.GET_INTRINSICS
          startup_mode := DETECTING_AND_SOLVING
          connections := [("d1", detector_conn), ("s1", solver_conn)] }
    ∃ id, dget (on_active_request_ids_processed s).state.request_series_by_label "s1"
        = some ((dget s.request_series_by_label "s1").getD []
            ++ [(⟨set_intrinsics_series s⟩, id)]) := by
  exact C2_set_intrinsics_series_amended _ (by decide) (by decide) (by decide) (by decide)
    "s1" (by decide)

theorem dget_ddel_other {κ α : Type} [DecidableEq κ] (l : List (κ × α)) (k k' : κ)
    (h : k ≠ k') : dget (ddel l k) k' = dget l k' := by
  induction l with
  | nil => rfl
  | cons p rest ih =>
    obtain ⟨k0, v⟩ := p
    by_cases h0 : k0 = k
    · subst h0
      have hd : ddel ((k0, v) :: rest) k0 = rest := by simp [ddel]
      rw [hd, dget_cons, if_neg h]
    · simp only [ddel, if_neg h0, dget_cons, ih]

/-- The components of the Connector state that the pending-id drain of
update_loop interacts with. -/
def drain_view (s : Connector) :
    Status × List Nat × List (Nat × Option MCastResponseSeries) :=
  (s.status, s.pending_request_ids, s.response_series_by_id)

theorem drain_view_enqueue (s : Connector) (sev m : String) :
    drain_view (enqueue_status_message s sev m) = drain_view s := rfl

theorem drain_view_handle_response_get_capture_properties (s : Connector)
    (x y : Nat) (l : String) :
    drain_view (handle_response_get_capture_properties s x y l) = drain_view s := by
  unfold handle_response_get_capture_properties
  split <;> rfl

theorem drain_view_handle_response_get_calibration_result (s : Connector)
    (ic : IntrinsicCalibration) :
    drain_view (handle_response_get_calibration_result s ic) = drain_view s := by
  unfold handle_response_get_calibration_result
  dsimp only
  split <;> rfl

theorem drain_view_handle_response_get_marker_snapshots (s : Connector)
    (det rej : List MarkerSnapshot) (l : String) (now : Timestamp) :
    drain_view (handle_response_get_marker_snapshots s det rej l now) = drain_view s := by
  unfold handle_response_get_marker_snapshots
  split <;> rfl

theorem drain_view_handle_response_get_poses (s : Connector)
    (dp tp : List Pose) (l : String) (now : Timestamp) :
    drain_view (handle_response_get_poses s dp tp l now) = drain_view s := by
  unfold handle_response_get_poses
  split <;> rfl

theorem drain_view_handle_response_list_calibration_detector_resolutions (s : Connector)
    (drs : List DetectorResolution) (l : String) :
    drain_view (handle_response_list_calibration_detector_resolutions s drs l) = drain_view s := by
  unfold handle_response_list_calibration_detector_resolutions
  split <;> rfl

theorem drain_view_handle_response_list_calibration_result_metadata (s : Connector)
    (ml : List CalibrationResultMetadata) (l : String) :
    drain_view (handle_response_list_calibration_result_metadata s ml l) = drain_view s := by
  unfold handle_response_list_calibration_result_metadata
  split
  · rfl
  · split <;> rfl

theorem drain_view_handle_response_series_loop (now : Timestamp) (responder : String)
    (rs : List MCastResponse) :
    ∀ (s : Connector) (success : Bool),
      drain_view (handle_response_series_loop now responder s rs success).1 = drain_view s := by
  induction rs with
  | nil => intro s success; rfl
  | cons r rest ih =>
    intro s success
    cases r with
    | add_target_marker =>
      simp only [handle_response_series_loop]; rw [ih]
    | get_calibration_result ic =>
      simp only [handle_response_series_loop]
      rw [ih, drain_view_handle_response_get_calibration_result]
    | get_capture_properties x y =>
      simp only [handle_response_series_loop]
      rw [ih, drain_view_handle_response_get_capture_properties]
    | get_marker_snapshots det rej =>
      simp only [handle_response_series_loop]
      rw [ih, drain_view_handle_response_get_marker_snapshots]
    | get_poses dp tp =>
      simp only [handle_response_series_loop]
      rw [ih, drain_view_handle_response_get_poses]
    | list_calibration_detector_resolutions drs =>
      simp only [handle_response_series_loop]
      rw [ih, drain_view_handle_response_list_calibration_detector_resolutions]
    | list_calibration_result_metadata ml =>
      simp only [handle_response_series_loop]
      rw [ih, drain_view_handle_response_list_calibration_result_metadata]
    | error m =>
      simp only [handle_response_series_loop]
      rw [ih]; rfl
    | empty =>
      simp only [handle_response_series_loop]; rw [ih]
    | dequeue_status_messages ml =>
      simp only [handle_response_series_loop]
      rw [ih]; rfl
    | other tag =>
      simp only [handle_response_series_loop]
      rw [ih]; rfl

theorem drain_view_handle_response_series (s : Connector) (now : Timestamp)
    (rs : MCastResponseSeries) (td : Option String) (ec : Option Nat) :
    drain_view (handle_response_series s now rs td ec).1 = drain_view s := by
  unfold handle_response_series
  rw [drain_view_handle_response_series_loop]
  cases ec with
  | none => rfl
  | some expected =>
    by_cases hlt : rs.series.length < expected
    · simp only [hlt, if_pos]; rfl
    · by_cases hgt : rs.series.length > expected
      · simp only [hlt, hgt]; rfl
      · simp only [hlt, hgt]; rfl

/-- Every identifier in the drained list carries a received response, so the
drain completes them all, leaving status and the pending list untouched. -/
theorem drain_pending_all_complete (now : Timestamp) (ids : List Nat) :
    ∀ (s : Connector) (completed : List Nat), ids.Nodup →
      (∀ id ∈ ids, ∃ rs, dget s.response_series_by_id id = some (some rs)) →
      (drain_pending_fold now s ids completed).result = PyResult.ok (completed ++ ids)
      ∧ (drain_pending_fold now s ids completed).state.status = s.status
      ∧ (drain_pending_fold now s ids completed).state.pending_request_ids
          = s.pending_request_ids := by
  induction ids with
  | nil =>
    intro s completed _ _
    exact ⟨by simp [drain_pending_fold], rfl, rfl⟩
  | cons id rest ih =>
    intro s completed hnodup hresp
    obtain ⟨rs, hrs⟩ := hresp id (List.mem_cons_self id rest)
    have hid_not_mem : id ∉ rest := (List.nodup_cons.mp hnodup).1
    have hrest_nodup : rest.Nodup := (List.nodup_cons.mp hnodup).2
    set s' : Connector :=
      { s with response_series_by_id := ddel s.response_series_by_id id } with hs'
    have hpop : response_series_pop s id
        = ⟨s', PyResult.ok (some rs)⟩ := by
      rw [response_series_pop, hrs]
    set handled := handle_response_series s' now rs none none with hh
    have hdv : drain_view handled.1 = drain_view s' :=
      drain_view_handle_response_series s' now rs none none
    have hstep : drain_pending_fold now s (id :: rest) completed
        = drain_pending_fold now handled.1 rest (completed ++ [id]) := by
      rw [drain_pending_fold, update_request, hpop]
    have hresp' : ∀ j ∈ rest, ∃ r, dget handled.1.response_series_by_id j = some (some r) := by
      intro j hj
      obtain ⟨r, hr⟩ := hresp j (List.mem_cons_of_mem id hj)
      refine ⟨r, ?_⟩
      have h1 : handled.1.response_series_by_id = s'.response_series_by_id :=
        congrArg (fun v => v.2.2) hdv
      rw [h1, hs']
      show dget (ddel s.response_series_by_id id) j = some (some r)
      rw [dget_ddel_other _ _ _ (fun he => hid_not_mem (by rw [he]; exact hj)), hr]
    have ihres := ih handled.1 (completed ++ [id]) hrest_nodup hresp'
    have hst : handled.1.status = s.status := congrArg (fun v => v.1) hdv
    have hpd : handled.1.pending_request_ids = s.pending_request_ids :=
      congrArg (fun v => v.2.1) hdv
    refine ⟨?_, ?_, ?_⟩
    · rw [hstep, ihres.1, List.append_assoc]; rfl
    · rw [hstep, ihres.2.1, hst]
    · rw [hstep, ihres.2.2, hpd]

/-- Erasing, in order, every element of a list from that same list empties it. -/
theorem foldl_erase_self (l : List Nat) :
    List.foldl (fun acc id => acc.erase id) l l = [] := by
  induction l with
  | nil => rfl
  | cons a t ih =>
    rw [List.foldl_cons]
    have he : (a :: t).erase a = t := List.erase_cons_head a t
    simp only [he]
    exact ih

/-- C4 (counterexample): with no peers, StartTracking followed by StopTracking
leaves status Stopping with an empty pending set, and any number of further
Ticks keeps it Stopping — the phase-advance hook only fires when a non-empty
pending list drains to empty during a Tick, so the claimed transition to
Stopped never happens. -/
theorem C4_stop_without_peers_stays_stopping :
    letI s1 := run_events Connector.init
      [Event.ev_start_tracking DETECTING_AND_SOLVING, Event.ev_stop_tracking]
    s1.status = Status.STOPPING
    ∧ s1.pending_request_ids = []
    ∧ (run_events s1 [Event.ev_update_loop 1, Event.ev_update_loop 2,
        Event.ev_update_loop 3]).status = Status.STOPPING
    ∧ Status.STOPPING ≠ Status.STOPPED := by
  decide

theorem on_active_stopping (t : Connector) (h : t.status = Status.STOPPING) :
    on_active_request_ids_processed t
      = ⟨{ t with status := Status.STOPPED }, PyResult.ok ()⟩ := by
  unfold on_active_request_ids_processed
  rw [h]
  rfl

/-- C4 (corrected): the Stopping-to-Stopped transition does happen on the Tick
in which a non-empty pending set, all of whose identifiers carry received
responses, drains to empty; on that Tick update_loop finishes normally with
status Stopped and an empty pending list. -/
theorem C4_stopping_drain_amended (s : Connector) (now : Timestamp)
    (h1 : s.status = Status.STOPPING)
    (h2 : s.pending_request_ids ≠ [])
    (h3 : s.pending_request_ids.Nodup)
    (h4 : ∀ id ∈ s.pending_request_ids, ∃ rs,
      dget s.response_series_by_id id = some (some rs)) :
    (update_loop s now).state.status = Status.STOPPED
    ∧ (update_loop s now).state.pending_request_ids = []
    ∧ (update_loop s now).result = PyResult.ok () := by
  have hrun : is_running s = false := by rw [is_running, h1]; rfl
  have hlen : s.pending_request_ids.length > 0 := List.length_pos.mpr h2
  have hdrain := drain_pending_all_complete now s.pending_request_ids s [] h3 h4
  rw [List.nil_append] at hdrain
  have hcore : update_loop s now
      = on_active_request_ids_processed
          { (drain_pending_fold now s s.pending_request_ids []).state with
              pending_request_ids := [] } := by
    unfold update_loop update_loop_relay_phase
    rw [hrun]
    simp only [Bool.false_eq_true, if_false]
    show update_loop_drain_phase now s = _
    unfold update_loop_drain_phase
    dsimp only
    rw [if_pos hlen, hdrain.1]
    split
    · rename_i m heq
      exact absurd heq (by simp)
    · rename_i completed heq
      have hc : s.pending_request_ids = completed := by
        injection heq
      subst hc
      rw [hdrain.2.2, foldl_erase_self]
      rfl
  have hsts : ({ (drain_pending_fold now s s.pending_request_ids []).state with
      pending_request_ids := ([] : List Nat) }).status = Status.STOPPING := by
    show (drain_pending_fold now s s.pending_request_ids []).state.status = Status.STOPPING
    rw [hdrain.2.1, h1]
  rw [hcore, on_active_stopping _ hsts]
  exact ⟨rfl, rfl, rfl⟩

/-- Witness for the amended C4: a Stopping state with one pending identifier
whose response has been received transitions to Stopped with an empty pending
list on the next Tick. -/
theorem C4_stopping_drain_amended_witness :
    letI s : Connector :=
      { Connector.init with
          status := Status.STOPPING
          pending_request_ids := [7]
          response_series_by_id := [(7, some ⟨[MCastResponse.empty], "d1"⟩)] }
    (update_loop s 0).state.status = Status.STOPPED
    ∧ (update_loop s 0).state.pending_request_ids = []
    ∧ (update_loop s 0).result = PyResult.ok () := by
  exact C4_stopping_drain_amended _ 0 (by decide) (by decide) (by decide)
    (by intro id hid
        simp only [List.mem_singleton] at hid
        subst hid
        exact ⟨⟨[MCastResponse.empty], "d1"⟩, by decide⟩)

/-- C6 (confirmed): response_series_pop raises ResponseSeriesNotExpected on an
identifier absent from the inbound map (never issued, ignored, or already
claimed), returns None and leaves the map untouched while the response is
outstanding, and on a received response removes the entry and returns the
series, after which an immediate second pop on the same identifier raises.
The Nodup hypothesis states that inbound identifiers are unique, which the
fresh-id supply of request_series_push guarantees for every reachable map. -/
theorem C6_response_series_pop_contract (s : Connector) (id : Nat) :
    (dget s.response_series_by_id id = none →
      (response_series_pop s id).result = PyResult.raised "ResponseSeriesNotExpected"
      ∧ (response_series_pop s id).state = s)
    ∧ (dget s.response_series_by_id id = some none →
      (response_series_pop s id).result = PyResult.ok none
      ∧ (response_series_pop s id).state = s)
    ∧ (∀ rs, dget s.response_series_by_id id = some (some rs) →
      (s.response_series_by_id.map Prod.fst).Nodup →
      (response_series_pop s id).result = PyResult.ok (some rs)
      ∧ (response_series_pop (response_series_pop s id).state id).result
          = PyResult.raised "ResponseSeriesNotExpected") := by
  refine ⟨?_, ?_, ?_⟩
  · intro h
    constructor
    · simp [response_series_pop, h]
    · simp [response_series_pop, h]
  · intro h
    constructor
    · simp [response_series_pop, h]
    · simp [response_series_pop, h]
  · intro rs h hnodup
    have hdel : dget (ddel s.response_series_by_id id) id = none :=
      dget_ddel_self_of_nodup _ _ hnodup
    constructor
    · simp [response_series_pop, h]
    · simp [response_series_pop, h, hdel]

/-- Witness for C6 at a concrete inbound map: id 0 carries a received series,
id 1 is still outstanding, id 2 was never issued. -/
theorem C6_response_series_pop_contract_witness :
    letI s : Connector :=
      { Connector.init with response_series_by_id := [(0, some ⟨[], "a"⟩), (1, none)] }
    (response_series_pop s 0).result = PyResult.ok (some ⟨[], "a"⟩)
    ∧ (response_series_pop (response_series_pop s 0).state 0).result
        = PyResult.raised "ResponseSeriesNotExpected"
    ∧ (response_series_pop s 1).result = PyResult.ok none
    ∧ (response_series_pop s 2).result = PyResult.raised "ResponseSeriesNotExpected" := by
  have h := C6_response_series_pop_contract
    { Connector.init with response_series_by_id := [(0, some ⟨[], "a"⟩), (1, none)] }
  refine ⟨((h 0).2.2 ⟨[], "a"⟩ (by decide) (by decide)).1,
    ((h 0).2.2 ⟨[], "a"⟩ (by decide) (by decide)).2,
    ((h 1).2.1 (by decide)).1, ((h 2).1 (by decide)).1⟩

/-! Infrastructure for the history invariants C5 and C7: projections of the
Connector state and simulation predicates for the composite operations. -/

/-- The detector timestamps that an AddMarkerCorners request carries for a
given detector label, in order of appearance in a request list. -/
def series_corners (reqs : List MCastRequest) (d : String) : List Timestamp :=
  reqs.filterMap (fun r =>
    match r with
    | MCastRequest.add_marker_corners _ _ dl ts => if dl = d then some ts else none
    | _ => none)

/-- All detector timestamps carried by AddMarkerCorners requests for detector d
inside request series pushed to peer p, in push order. -/
def sent_corners (log : List (String × List MCastRequest)) (p d : String) :
    List Timestamp :=
  log.flatMap (fun e => if e.1 = p then series_corners e.2 d else [])

/-- The last-seen detector timestamp recorded for detector d in the
detector_timestamps map of the pose solver stored under label p. -/
def dtp (s : Connector) (p d : String) : Option Timestamp :=
  match get_live_pose_solver_connection s p with
  | none => none
  | some lp => dget lp.detector_timestamps d

/-- The supervisor-relevant view of one peer: session status and attempt count. -/
def conn_status_count (s : Connector) (l : String) : Option (String × Nat) :=
  (dget s.connections l).map
    (fun c => (c.live_connection.status, c.live_connection.attempt_count))

/-- How the last-seen timestamp for one (solver, detector) pair may evolve
during one operation that pushes the given list of timestamps for that pair:
pushed timestamps are strictly increasing, all lie strictly above the old
recorded value, the new recorded value is at least the last pushed one, and
the recorded value never decreases or disappears. -/
def emit_rel (old new : Option Timestamp) (emitted : List Timestamp) : Prop :=
  List.Chain' (· < ·) emitted
  ∧ (∀ v ∈ emitted, ∀ w, old = some w → w < v)
  ∧ (∀ v, emitted.getLast? = some v → ∃ w, new = some w ∧ v ≤ w)
  ∧ (∀ w, old = some w → ∃ w', new = some w' ∧ w ≤ w')
  ∧ (new = none → old = none)

theorem emit_rel_refl (o : Option Timestamp) : emit_rel o o [] := by
  refine ⟨List.chain'_nil, ?_, ?_, ?_, ?_⟩
  · intro v hv; exact absurd hv (List.not_mem_nil v)
  · intro v hv; simp at hv
  · intro w hw; exact ⟨w, hw, le_refl w⟩
  · intro h; exact h

theorem emit_rel_drop {o n : Option Timestamp} {e : List Timestamp}
    (h : emit_rel o n e) : emit_rel o n [] := by
  refine ⟨List.chain'_nil, ?_, ?_, h.2.2.2.1, h.2.2.2.2⟩
  · intro v hv; exact absurd hv (List.not_mem_nil v)
  · intro v hv; simp at hv

theorem emit_rel_trans {o m n : Option Timestamp} {e1 e2 : List Timestamp}
    (h1 : emit_rel o m e1) (h2 : emit_rel m n e2) :
    emit_rel o n (e1 ++ e2) := by
  obtain ⟨c1, ab1, la1, mo1, np1⟩ := h1
  obtain ⟨c2, ab2, la2, mo2, np2⟩ := h2
  refine ⟨?_, ?_, ?_, ?_, fun hn => np1 (np2 hn)⟩
  · refine List.Chain'.append c1 c2 ?_
    intro a ha b hb
    obtain ⟨w, hw, haw⟩ := la1 a (Option.mem_def.mp ha)
    exact lt_of_le_of_lt haw (ab2 b (List.mem_of_mem_head? hb) w hw)
  · intro v hv w hw
    rcases List.mem_append.mp hv with h | h
    · exact ab1 v h w hw
    · obtain ⟨w', hw', hww'⟩ := mo1 w hw
      exact lt_of_le_of_lt hww' (ab2 v h w' hw')
  · intro v hv
    by_cases he2 : e2 = []
    · subst he2
      rw [List.append_nil] at hv
      obtain ⟨w, hw, hvw⟩ := la1 v hv
      obtain ⟨w', hw', hww'⟩ := mo2 w hw
      exact ⟨w', hw', le_trans hvw hww'⟩
    · rw [List.getLast?_append_of_ne_nil e1 he2] at hv
      exact la2 v hv
  · intro w hw
    obtain ⟨w', hw', h1'⟩ := mo1 w hw
    obtain ⟨w'', hw'', h2'⟩ := mo2 w' hw'
    exact ⟨w'', hw'', le_trans h1' h2'⟩

theorem sent_corners_append (l1 l2 : List (String × List MCastRequest)) (p d : String) :
    sent_corners (l1 ++ l2) p d = sent_corners l1 p d ++ sent_corners l2 p d := by
  unfold sent_corners
  rw [List.flatMap_append]

theorem sent_corners_nil (p d : String) : sent_corners [] p d = [] := rfl

theorem sent_corners_single (q : String) (reqs : List MCastRequest) (p d : String) :
    sent_corners [(q, reqs)] p d = if q = p then series_corners reqs d else [] := by
  unfold sent_corners
  simp

theorem series_corners_append (a b : List MCastRequest) (d : String) :
    series_corners (a ++ b) d = series_corners a d ++ series_corners b d := by
  unfold series_corners
  rw [List.filterMap_append]

/-- A request list containing no AddMarkerCorners requests. -/
def corner_free (reqs : List MCastRequest) : Prop :=
  ∀ d, series_corners reqs d = []

theorem dget_some_mem {κ α : Type} [DecidableEq κ] {l : List (κ × α)} {k : κ} {v : α}
    (h : dget l k = some v) : (k, v) ∈ l := by
  induction l with
  | nil => cases h
  | cons p rest ih =>
    obtain ⟨k0, v0⟩ := p
    rw [dget_cons] at h
    by_cases h0 : k0 = k
    · subst h0
      rw [if_pos rfl] at h
      injection h with h
      subst h
      exact List.mem_cons_self _ _
    · rw [if_neg h0] at h
      exact List.mem_cons_of_mem _ (ih h)

theorem mem_dmodify {κ α : Type} [DecidableEq κ] {l : List (κ × α)} {k : κ} {f : α → α}
    {e : κ × α} (he : e ∈ dmodify k f l) :
    e ∈ l ∨ ∃ v, dget l k = some v ∧ e = (k, f v) := by
  induction l with
  | nil => exact absurd he (List.not_mem_nil e)
  | cons p rest ih =>
    obtain ⟨k0, v0⟩ := p
    by_cases h0 : k0 = k
    · subst h0
      rw [dmodify_cons, if_pos rfl] at he
      rcases List.mem_cons.mp he with h | h
      · exact Or.inr ⟨v0, by rw [dget_cons, if_pos rfl], h⟩
      · exact Or.inl (List.mem_cons_of_mem _ h)
    · rw [dmodify_cons, if_neg h0] at he
      rcases List.mem_cons.mp he with h | h
      · exact Or.inl (h ▸ List.mem_cons_self _ _)
      · rcases ih h with h' | ⟨v, hv, hev⟩
        · exact Or.inl (List.mem_cons_of_mem _ h')
        · refine Or.inr ⟨v, ?_, hev⟩
          rw [dget_cons, if_neg h0]
          exact hv

/-- Operations that leave every peer's session status and attempt counter
unchanged (both through the first-match read used by the supervisor and
entry-wise across the whole peer list), and neither add nor drop peers. -/
def relay_quiet (s s' : Connector) : Prop :=
  (∀ l, conn_status_count s' l = conn_status_count s l)
  ∧ (∀ e ∈ s'.connections, ∃ e2 ∈ s.connections,
      (e : String × Connection).2.live_connection.status = e2.2.live_connection.status
      ∧ e.2.live_connection.attempt_count = e2.2.live_connection.attempt_count)
  ∧ (∀ p, dget s'.connections p = none ↔ dget s.connections p = none)

/-- Operations that additionally leave every pose solver's per-detector
timestamp map and the push journal unchanged. -/
def quiet5 (s s' : Connector) : Prop :=
  relay_quiet s s'
  ∧ (∀ p d, dtp s' p d = dtp s p d)
  ∧ s'.push_log = s.push_log

theorem dtp_congr {s s' : Connector} (h : s'.connections = s.connections) (p d : String) :
    dtp s' p d = dtp s p d := by
  unfold dtp get_live_pose_solver_connection
  rw [h]

theorem relay_quiet_of_connections_eq {s s' : Connector}
    (h : s'.connections = s.connections) : relay_quiet s s' := by
  refine ⟨?_, ?_, ?_⟩
  · intro l; unfold conn_status_count; rw [h]
  · intro e he; exact ⟨e, h ▸ he, rfl, rfl⟩
  · intro p; rw [h]

theorem relay_quiet_trans {s1 s2 s3 : Connector}
    (h1 : relay_quiet s1 s2) (h2 : relay_quiet s2 s3) : relay_quiet s1 s3 := by
  refine ⟨?_, ?_, ?_⟩
  · intro l; rw [h2.1, h1.1]
  · intro e he
    obtain ⟨e2, he2, hs, hc⟩ := h2.2.1 e he
    obtain ⟨e1, he1, hs', hc'⟩ := h1.2.1 e2 he2
    exact ⟨e1, he1, hs.trans hs', hc.trans hc'⟩
  · intro p; rw [h2.2.2 p, h1.2.2 p]

theorem quiet5_of_connections_eq {s s' : Connector}
    (hc : s'.connections = s.connections) (hl : s'.push_log = s.push_log) :
    quiet5 s s' :=
  ⟨relay_quiet_of_connections_eq hc, fun p d => dtp_congr hc p d, hl⟩

theorem quiet5_refl (s : Connector) : quiet5 s s :=
  quiet5_of_connections_eq rfl rfl

theorem quiet5_trans {s1 s2 s3 : Connector}
    (h1 : quiet5 s1 s2) (h2 : quiet5 s2 s3) : quiet5 s1 s3 :=
  ⟨relay_quiet_trans h1.1 h2.1,
    fun p d => (h2.2.1 p d).trans (h1.2.1 p d),
    h2.2.2.trans h1.2.2⟩

theorem connections_modify_live (s : Connector) (l : String)
    (f : LiveConnection → LiveConnection) :
    (modify_live s l f).connections
      = dmodify l (fun c => { c with live_connection := f c.live_connection })
          s.connections := rfl

theorem conn_status_count_eq (s : Connector) (l : String) :
    conn_status_count s l = (dget s.connections l).map
      (fun c => (c.live_connection.status, c.live_connection.attempt_count)) := rfl

theorem relay_quiet_modify_live (s : Connector) (l : String)
    (f : LiveConnection → LiveConnection)
    (hf : ∀ lc, (f lc).status = lc.status ∧ (f lc).attempt_count = lc.attempt_count) :
    relay_quiet s (modify_live s l f) := by
  refine ⟨?_, ?_, ?_⟩
  · intro l'
    rw [conn_status_count_eq, conn_status_count_eq, connections_modify_live]
    by_cases h : l = l'
    · subst h
      rw [dget_dmodify_self]
      cases dget s.connections l with
      | none => rfl
      | some c => simp [(hf c.live_connection).1, (hf c.live_connection).2]
    · rw [dget_dmodify_other _ _ _ _ h]
  · intro e he
    rw [connections_modify_live] at he
    rcases mem_dmodify he with h | ⟨v, hv, hev⟩
    · exact ⟨e, h, rfl, rfl⟩
    · subst hev
      exact ⟨(l, v), dget_some_mem hv, (hf v.live_connection).1, (hf v.live_connection).2⟩
  · intro p
    rw [connections_modify_live]
    by_cases h : l = p
    · subst h
      rw [dget_dmodify_self]
      cases dget s.connections l <;> simp
    · rw [dget_dmodify_other _ _ _ _ h]

theorem get_live_pose_solver_modify_other (s : Connector) (l : String)
    (f : LiveConnection → LiveConnection) (p : String) (h : l ≠ p) :
    get_live_pose_solver_connection (modify_live s l f) p
      = get_live_pose_solver_connection s p := by
  unfold get_live_pose_solver_connection modify_live modify_connection
  rw [dget_dmodify_other _ _ _ _ h]

theorem get_live_pose_solver_eq (s : Connector) (l : String) :
    get_live_pose_solver_connection s l
      = match dget s.connections l with
        | none => none
        | some c =>
          match c.live_connection.role_data with
          | LiveRoleData.pose_solver p0 => some p0
          | _ => none := rfl

theorem get_live_pose_solver_modify_self (s : Connector) (l : String)
    (f : LiveConnection → LiveConnection) :
    get_live_pose_solver_connection (modify_live s l f) l
      = match dget s.connections l with
        | none => none
        | some c =>
          match (f c.live_connection).role_data with
          | LiveRoleData.pose_solver p0 => some p0
          | _ => none := by
  rw [get_live_pose_solver_eq, connections_modify_live, dget_dmodify_self]
  cases dget s.connections l <;> rfl

theorem quiet5_set_live_detector_data (s : Connector) (l : String) (d' : LiveDetectorData) :
    quiet5 s (set_live_detector_data s l d') := by
  have hset : set_live_detector_data s l d'
      = modify_live s l (fun lc =>
          match lc.role_data with
          | LiveRoleData.detector _ => { lc with role_data := LiveRoleData.detector d' }
          | _ => lc) := rfl
  refine ⟨hset ▸ relay_quiet_modify_live s l _ ?_, ?_, rfl⟩
  · intro lc; cases lc.role_data <;> exact ⟨rfl, rfl⟩
  · intro p dd
    unfold dtp
    by_cases h : l = p
    · subst h
      rw [hset, get_live_pose_solver_modify_self, get_live_pose_solver_eq]
      cases hc : dget s.connections l with
      | none => rfl
      | some c =>
        cases hr : c.live_connection.role_data with
        | detector d0 => simp [hr]
        | pose_solver p0 => simp [hr]
    · rw [hset, get_live_pose_solver_modify_other s l _ p h]

theorem quiet5_set_detector_request_id (s : Connector) (l : String) (rid : Option Nat) :
    quiet5 s (set_detector_request_id s l rid) := by
  unfold set_detector_request_id
  cases get_live_detector_connection s l with
  | none => exact quiet5_refl s
  | some d => exact quiet5_set_live_detector_data s l _

theorem get_live_pose_solver_set_data (s : Connector) (l : String) (lp' : LivePoseSolverData)
    (p : String) :
    get_live_pose_solver_connection (set_live_pose_solver_data s l lp') p
      = if l = p then
          (match get_live_pose_solver_connection s p with
            | none => none
            | some _ => some lp')
        else get_live_pose_solver_connection s p := by
  have hset : set_live_pose_solver_data s l lp'
      = modify_live s l (fun lc =>
          match lc.role_data with
          | LiveRoleData.pose_solver _ => { lc with role_data := LiveRoleData.pose_solver lp' }
          | _ => lc) := rfl
  by_cases h : l = p
  · subst h
    rw [if_pos rfl, hset, get_live_pose_solver_modify_self, get_live_pose_solver_eq]
    cases hc : dget s.connections l with
    | none => rfl
    | some c =>
      cases hr : c.live_connection.role_data with
      | detector d0 => simp [hr]
      | pose_solver p0 => simp [hr]
  · rw [if_neg h, hset]
    exact get_live_pose_solver_modify_other s l _ p h

theorem relay_quiet_set_live_pose_solver_data (s : Connector) (l : String)
    (lp' : LivePoseSolverData) :
    relay_quiet s (set_live_pose_solver_data s l lp') := by
  refine relay_quiet_modify_live s l _ ?_
  intro lc; cases lc.role_data <;> exact ⟨rfl, rfl⟩

theorem quiet5_set_pose_solver_request_id (s : Connector) (l : String) (rid : Option Nat) :
    quiet5 s (set_pose_solver_request_id s l rid) := by
  unfold set_pose_solver_request_id
  cases hg : get_live_pose_solver_connection s l with
  | none => exact quiet5_refl s
  | some p0 =>
    refine ⟨relay_quiet_set_live_pose_solver_data s l _, ?_, rfl⟩
    intro p dd
    unfold dtp
    rw [get_live_pose_solver_set_data]
    by_cases h : l = p
    · subst h
      rw [if_pos rfl, hg]
    · rw [if_neg h]

theorem quiet5_handle_error_response (s : Connector) (m : String) :
    quiet5 s (handle_error_response s m) :=
  quiet5_of_connections_eq rfl rfl

theorem quiet5_handle_response_unknown (s : Connector) :
    quiet5 s (handle_response_unknown s) :=
  quiet5_of_connections_eq rfl rfl

theorem quiet5_handle_response_get_capture_properties (s : Connector) (x y : Nat)
    (l : String) : quiet5 s (handle_response_get_capture_properties s x y l) := by
  unfold handle_response_get_capture_properties
  split
  · exact quiet5_of_connections_eq rfl rfl
  · exact quiet5_set_live_detector_data _ _ _

theorem quiet5_handle_response_get_calibration_result (s : Connector)
    (ic : IntrinsicCalibration) :
    quiet5 s (handle_response_get_calibration_result s ic) := by
  unfold handle_response_get_calibration_result
  dsimp only
  split
  · exact quiet5_of_connections_eq rfl rfl
  · exact quiet5_set_live_detector_data _ _ _

theorem quiet5_handle_response_get_marker_snapshots (s : Connector)
    (det rej : List MarkerSnapshot) (l : String) (now : Timestamp) :
    quiet5 s (handle_response_get_marker_snapshots s det rej l now) := by
  unfold handle_response_get_marker_snapshots
  split
  · exact quiet5_of_connections_eq rfl rfl
  · exact quiet5_set_live_detector_data _ _ _

theorem quiet5_handle_response_list_calibration_detector_resolutions (s : Connector)
    (drs : List DetectorResolution) (l : String) :
    quiet5 s (handle_response_list_calibration_detector_resolutions s drs l) := by
  unfold handle_response_list_calibration_detector_resolutions
  split
  · exact quiet5_of_connections_eq rfl rfl
  · exact quiet5_set_live_detector_data _ _ _

theorem quiet5_handle_response_list_calibration_result_metadata (s : Connector)
    (ml : List CalibrationResultMetadata) (l : String) :
    quiet5 s (handle_response_list_calibration_result_metadata s ml l) := by
  unfold handle_response_list_calibration_result_metadata
  split
  · exact quiet5_of_connections_eq rfl rfl
  · split
    · exact quiet5_of_connections_eq rfl rfl
    · exact quiet5_set_live_detector_data _ _ _

theorem quiet5_handle_response_get_poses (s : Connector) (dp tp : List Pose)
    (l : String) (now : Timestamp) :
    quiet5 s (handle_response_get_poses s dp tp l now) := by
  unfold handle_response_get_poses
  split
  · exact quiet5_of_connections_eq rfl rfl
  · rename_i p0 heq
    refine ⟨relay_quiet_set_live_pose_solver_data s l _, ?_, rfl⟩
    intro p dd
    unfold dtp
    rw [get_live_pose_solver_set_data]
    by_cases h : l = p
    · subst h
      rw [if_pos rfl, heq]
    · rw [if_neg h]

theorem quiet5_handle_response_series_loop (now : Timestamp) (responder : String)
    (rs : List MCastResponse) :
    ∀ (s : Connector) (success : Bool),
      quiet5 s (handle_response_series_loop now responder s rs success).1 := by
  induction rs with
  | nil => intro s success; exact quiet5_refl s
  | cons r rest ih =>
    intro s success
    cases r with
    | add_target_marker =>
      simp only [handle_response_series_loop]; exact ih s true
    | get_calibration_result ic =>
      simp only [handle_response_series_loop]
      exact quiet5_trans (quiet5_handle_response_get_calibration_result s ic) (ih _ true)
    | get_capture_properties x y =>
      simp only [handle_response_series_loop]
      exact quiet5_trans (quiet5_handle_response_get_capture_properties s x y responder)
        (ih _ true)
    | get_marker_snapshots det rej =>
      simp only [handle_response_series_loop]
      exact quiet5_trans
        (quiet5_handle_response_get_marker_snapshots s det rej responder now) (ih _ success)
    | get_poses dp tp =>
      simp only [handle_response_series_loop]
      exact quiet5_trans (quiet5_handle_response_get_poses s dp tp responder now) (ih _ true)
    | list_calibration_detector_resolutions drs =>
      simp only [handle_response_series_loop]
      exact quiet5_trans
        (quiet5_handle_response_list_calibration_detector_resolutions s drs responder)
        (ih _ true)
    | list_calibration_result_metadata ml =>
      simp only [handle_response_series_loop]
      exact quiet5_trans
        (quiet5_handle_response_list_calibration_result_metadata s ml responder) (ih _ true)
    | error m =>
      simp only [handle_response_series_loop]
      exact quiet5_trans (quiet5_handle_error_response s m) (ih _ false)
    | empty =>
      simp only [handle_response_series_loop]; exact ih s success
    | dequeue_status_messages ml =>
      simp only [handle_response_series_loop]
      exact quiet5_trans (quiet5_handle_response_unknown s) (ih _ false)
    | other tag =>
      simp only [handle_response_series_loop]
      exact quiet5_trans (quiet5_handle_response_unknown s) (ih _ false)

theorem quiet5_handle_response_series (s : Connector) (now : Timestamp)
    (rs : MCastResponseSeries) (td : Option String) (ec : Option Nat) :
    quiet5 s (handle_response_series s now rs td ec).1 := by
  unfold handle_response_series
  refine quiet5_trans ?_ (quiet5_handle_response_series_loop now rs.responder rs.series _ true)
  cases ec with
  | none => exact quiet5_refl s
  | some expected =>
    by_cases hlt : rs.series.length < expected
    · simp only [hlt, if_pos]; exact quiet5_of_connections_eq rfl rfl
    · by_cases hgt : rs.series.length > expected
      · simp only [hlt, hgt]; exact quiet5_of_connections_eq rfl rfl
      · simp only [hlt, hgt]; exact quiet5_refl s

theorem quiet5_response_series_pop (s : Connector) (rid : Nat) :
    quiet5 s (response_series_pop s rid).state := by
  unfold response_series_pop
  split
  · exact quiet5_refl s
  · exact quiet5_refl s
  · exact quiet5_of_connections_eq rfl rfl

theorem quiet5_update_request (s : Connector) (now : Timestamp) (rid : Nat)
    (td : Option String) (ec : Option Nat) :
    quiet5 s (update_request s now rid td ec).state := by
  unfold update_request
  cases hres : (response_series_pop s rid).result with
  | raised m =>
    simpa [hres] using quiet5_response_series_pop s rid
  | ok o =>
    cases o with
    | none => simpa [hres] using quiet5_response_series_pop s rid
    | some rs =>
      simp only [hres]
      exact quiet5_trans (quiet5_response_series_pop s rid)
        (quiet5_handle_response_series _ now rs td ec)

/-- Simulation predicate for the C5 history invariant over one operation: the
peer domain does not grow backwards, the push journal only gains a suffix, and
for every (solver, detector) pair the pushed timestamps and the recorded
last-seen timestamp evolve according to emit_rel. -/
def c5_ext (s s' : Connector) : Prop :=
  (∀ p, dget s'.connections p = none → dget s.connections p = none)
  ∧ ∃ tail, s'.push_log = s.push_log ++ tail
      ∧ (∀ p d, emit_rel (dtp s p d) (dtp s' p d) (sent_corners tail p d))
      ∧ (∀ p d, dget s'.connections p = none → sent_corners tail p d = [])

theorem c5_ext_of_quiet5 {s s' : Connector} (h : quiet5 s s') : c5_ext s s' := by
  refine ⟨fun p hp => (h.1.2.2 p).mp hp, [], by rw [h.2.2, List.append_nil], ?_, ?_⟩
  · intro p d
    rw [sent_corners_nil, h.2.1 p d]
    exact emit_rel_refl _
  · intro p d _
    exact sent_corners_nil p d

theorem c5_ext_trans {a b c : Connector}
    (h1 : c5_ext a b) (h2 : c5_ext b c) : c5_ext a c := by
  obtain ⟨hn1, t1, hl1, he1, hb1⟩ := h1
  obtain ⟨hn2, t2, hl2, he2, hb2⟩ := h2
  refine ⟨fun p hp => hn1 p (hn2 p hp), t1 ++ t2, ?_, ?_, ?_⟩
  · rw [hl2, hl1, List.append_assoc]
  · intro p d
    rw [sent_corners_append]
    exact emit_rel_trans (he1 p d) (he2 p d)
  · intro p d hp
    rw [sent_corners_append, hb2 p d hp, hb1 p d (hn2 p hp), List.append_nil]

theorem request_series_push_log (s : Connector) (l : String) (series : MCastRequestSeries) :
    (request_series_push s l series).1.push_log = s.push_log ++ [(l, series.series)] := by
  unfold request_series_push
  by_cases h : (dget s.request_series_by_label l).isSome <;> simp [h]

theorem c5_ext_push (s : Connector) (l : String) (series : MCastRequestSeries)
    (hfree : ∀ d, series_corners series.series d = []) :
    c5_ext s (request_series_push s l series).1 := by
  have hconn := request_series_push_connections s l series
  refine ⟨fun p hp => by rw [← hconn]; exact hp,
    [(l, series.series)], request_series_push_log s l series, ?_, ?_⟩
  · intro p d
    rw [sent_corners_single, dtp_congr hconn]
    by_cases h : l = p
    · rw [if_pos h, hfree d]; exact emit_rel_refl _
    · rw [if_neg h]; exact emit_rel_refl _
  · intro p d _
    rw [sent_corners_single]
    by_cases h : l = p
    · rw [if_pos h, hfree d]
    · rw [if_neg h]

theorem relay_quiet_push (s : Connector) (l : String) (series : MCastRequestSeries) :
    relay_quiet s (request_series_push s l series).1 :=
  relay_quiet_of_connections_eq (request_series_push_connections s l series)

theorem push_and_pend_log (s : Connector) (l : String) (series : List MCastRequest) :
    (push_and_pend s l series).push_log = s.push_log ++ [(l, series)] := by
  unfold push_and_pend
  exact request_series_push_log s l ⟨series⟩

theorem c5_ext_push_and_pend (s : Connector) (l : String) (series : List MCastRequest)
    (hfree : ∀ d, series_corners series d = []) :
    c5_ext s (push_and_pend s l series) := by
  have h := c5_ext_push s l ⟨series⟩ hfree
  unfold push_and_pend
  obtain ⟨hn, tail, hl, he, hb⟩ := h
  refine ⟨hn, tail, hl, ?_, hb⟩
  intro p d
  have : dtp { (request_series_push s l ⟨series⟩).1 with
      pending_request_ids := (request_series_push s l ⟨series⟩).1.pending_request_ids
        ++ [(request_series_push s l ⟨series⟩).2] } p d
      = dtp (request_series_push s l ⟨series⟩).1 p d := dtp_congr rfl p d
  rw [this]
  exact he p d

theorem relay_quiet_push_and_pend (s : Connector) (l : String) (series : List MCastRequest) :
    relay_quiet s (push_and_pend s l series) := by
  unfold push_and_pend
  exact relay_quiet_of_connections_eq (request_series_push_connections s l ⟨series⟩)

theorem series_corners_eq_nil_of_no_corners (l : List MCastRequest)
    (h : ∀ r ∈ l, ∀ det rej dl ts, r ≠ MCastRequest.add_marker_corners det rej dl ts)
    (d : String) : series_corners l d = [] := by
  induction l with
  | nil => rfl
  | cons r rest ih =>
    have hr := h r (List.mem_cons_self r rest)
    have hrest : ∀ r' ∈ rest, ∀ det rej dl ts,
        r' ≠ MCastRequest.add_marker_corners det rej dl ts :=
      fun r' hr' => h r' (List.mem_cons_of_mem r hr')
    unfold series_corners
    rw [List.filterMap_cons]
    cases r with
    | add_marker_corners a b c e => exact absurd rfl (hr a b c e)
    | start_capture => exact ih hrest
    | stop_capture => exact ih hrest
    | list_calibration_detector_resolutions => exact ih hrest
    | get_capture_properties => exact ih hrest
    | list_calibration_result_metadata a b => exact ih hrest
    | get_calibration_result a => exact ih hrest
    | set_intrinsic_parameters a b => exact ih hrest
    | start_pose_solver => exact ih hrest
    | stop_pose_solver => exact ih hrest
    | get_marker_snapshots => exact ih hrest
    | get_poses => exact ih hrest
    | dequeue_status_messages => exact ih hrest

/-- Both supervision facts bundled: the C5 simulation step together with
supervisor quietness, the shape that every sub-operation of a Tick satisfies. -/
def tick_ext (s s' : Connector) : Prop :=
  c5_ext s s' ∧ relay_quiet s s'

theorem tick_ext_refl (s : Connector) : tick_ext s s :=
  ⟨c5_ext_of_quiet5 (quiet5_refl s), relay_quiet_of_connections_eq rfl⟩

theorem tick_ext_trans {a b c : Connector}
    (h1 : tick_ext a b) (h2 : tick_ext b c) : tick_ext a c :=
  ⟨c5_ext_trans h1.1 h2.1, relay_quiet_trans h1.2 h2.2⟩

theorem tick_ext_of_quiet5 {s s' : Connector} (h : quiet5 s s') : tick_ext s s' :=
  ⟨c5_ext_of_quiet5 h, h.1⟩

theorem tick_ext_push_and_pend (s : Connector) (l : String) (series : List MCastRequest)
    (hfree : ∀ d, series_corners series d = []) :
    tick_ext s (push_and_pend s l series) :=
  ⟨c5_ext_push_and_pend s l series hfree, relay_quiet_push_and_pend s l series⟩

theorem tick_ext_push_and_pend_fold (series : List MCastRequest)
    (hfree : ∀ d, series_corners series d = []) :
    ∀ (L : List String) (s : Connector), tick_ext s (push_and_pend_fold series s L) := by
  intro L
  induction L with
  | nil => intro s; exact tick_ext_refl s
  | cons l rest ih =>
    intro s
    unfold push_and_pend_fold
    exact tick_ext_trans (tick_ext_push_and_pend s l series hfree) (ih _)

theorem list_metadata_requests_fold_corner_free (dl : String)
    (cur : Option ImageResolution) :
    ∀ (L : List DetectorResolution) (acc : List MCastRequest × Bool),
      (∀ d, series_corners acc.1 d = []) →
      ∀ d, series_corners (list_metadata_requests_fold dl cur acc L).1 d = [] := by
  intro L
  induction L with
  | nil => intro acc hacc d; exact hacc d
  | cons dr rest ih =>
    intro acc hacc d
    unfold list_metadata_requests_fold
    by_cases h : dr.detector_serial_identifier = dl ∧ some dr.image_resolution = cur
    · rw [if_pos h]
      refine ih _ ?_ d
      intro d'
      rw [series_corners_append, hacc d']
      rfl
    · rw [if_neg h]
      exact ih acc hacc d

theorem tick_ext_get_resolutions_step (s : Connector) (l : String) :
    tick_ext s (get_resolutions_step s l).state := by
  unfold get_resolutions_step
  split
  · exact tick_ext_of_quiet5 (quiet5_of_connections_eq rfl rfl)
  · rename_i live heq
    cases hc : live.calibrated_resolutions with
    | none => exact tick_ext_refl s
    | some calibrated =>
      refine tick_ext_trans (b := if (list_metadata_requests_fold l
          live.current_resolution ([], false) calibrated).2 then s
        else enqueue_status_message s "error"
          ("No calibration available for detector " ++ l ++
            " at its current resolution. No intrinsics will be set.")) ?_ ?_
      · by_cases hb : (list_metadata_requests_fold l live.current_resolution
            ([], false) calibrated).2
        · rw [if_pos hb]; exact tick_ext_refl s
        · rw [if_neg hb]; exact tick_ext_of_quiet5 (quiet5_of_connections_eq rfl rfl)
      · exact tick_ext_push_and_pend _ l _
          (list_metadata_requests_fold_corner_free l live.current_resolution calibrated
            ([], false) (fun _ => rfl))

theorem tick_ext_get_resolutions_fold :
    ∀ (L : List String) (s : Connector), tick_ext s (get_resolutions_fold s L).state := by
  intro L
  induction L with
  | nil => intro s; exact tick_ext_refl s
  | cons l rest ih =>
    intro s
    unfold get_resolutions_fold
    cases hres : (get_resolutions_step s l).result with
    | ok v =>
      simp only [hres]
      exact tick_ext_trans (tick_ext_get_resolutions_step s l) (ih _)
    | raised m =>
      simp only [hres]
      exact tick_ext_get_resolutions_step s l

theorem tick_ext_list_intrinsics_step (s : Connector) (l : String) :
    tick_ext s (list_intrinsics_step s l) := by
  unfold list_intrinsics_step
  split
  · exact tick_ext_of_quiet5 (quiet5_of_connections_eq rfl rfl)
  · exact tick_ext_push_and_pend s l _ (fun _ => rfl)

theorem tick_ext_list_intrinsics_fold :
    ∀ (L : List String) (s : Connector), tick_ext s (list_intrinsics_fold s L) := by
  intro L
  induction L with
  | nil => intro s; exact tick_ext_refl s
  | cons l rest ih =>
    intro s
    unfold list_intrinsics_fold
    exact tick_ext_trans (tick_ext_list_intrinsics_step s l) (ih _)

theorem set_intrinsics_requests_fold_quiet :
    ∀ (L : List String) (s : Connector) (acc : List MCastRequest),
      quiet5 s (set_intrinsics_requests_fold s acc L).1 := by
  intro L
  induction L with
  | nil => intro s acc; exact quiet5_refl s
  | cons l rest ih =>
    intro s acc
    unfold set_intrinsics_requests_fold
    split
    · exact quiet5_trans (quiet5_of_connections_eq rfl rfl) (ih _ _)
    · exact ih _ _

theorem set_intrinsics_requests_fold_no_corners :
    ∀ (L : List String) (s : Connector) (acc : List MCastRequest),
      (∀ d, series_corners acc d = []) →
      ∀ d, series_corners (set_intrinsics_requests_fold s acc L).2 d = [] := by
  intro L
  induction L with
  | nil => intro s acc hacc d; exact hacc d
  | cons l rest ih =>
    intro s acc hacc d
    unfold set_intrinsics_requests_fold
    split
    · exact ih _ _ hacc d
    · refine ih _ _ ?_ d
      intro d'
      rw [series_corners_append, hacc d']
      rfl

theorem tick_ext_set_intrinsics_solver_fold :
    ∀ (L : List String) (s : Connector), tick_ext s (set_intrinsics_solver_fold s L) := by
  intro L
  induction L with
  | nil => intro s; exact tick_ext_refl s
  | cons p rest ih =>
    intro s
    unfold set_intrinsics_solver_fold
    have hfree : ∀ d, series_corners
        ((set_intrinsics_requests_fold s [] (get_connected_detector_labels s)).2
          ++ [MCastRequest.start_pose_solver]) d = [] := by
      intro d
      rw [series_corners_append,
        set_intrinsics_requests_fold_no_corners (get_connected_detector_labels s) s []
          (fun _ => rfl) d]
      rfl
    have h1 : tick_ext s
        (set_intrinsics_requests_fold s [] (get_connected_detector_labels s)).1 :=
      tick_ext_of_quiet5
        (set_intrinsics_requests_fold_quiet (get_connected_detector_labels s) s [])
    have h2 := tick_ext_push_and_pend
      (set_intrinsics_requests_fold s [] (get_connected_detector_labels s)).1 p
      ((set_intrinsics_requests_fold s [] (get_connected_detector_labels s)).2
        ++ [MCastRequest.start_pose_solver]) hfree
    exact tick_ext_trans (tick_ext_trans h1 h2) (ih _)

theorem tick_ext_on_active (s : Connector) :
    tick_ext s (on_active_request_ids_processed s).state := by
  unfold on_active_request_ids_processed
  by_cases h1 : s.status = Status.STARTING
  · rw [if_pos h1]
    cases s.startup_state with
    | STARTING_CAPTURE =>
      exact tick_ext_trans (tick_ext_of_quiet5 (quiet5_of_connections_eq rfl rfl))
        (tick_ext_push_and_pend_fold
          [MCastRequest.list_calibration_detector_resolutions,
            MCastRequest.get_capture_properties] (fun _ => rfl) _ _)
    | GET_RESOLUTIONS =>
      cases hres : (get_resolutions_fold
          (enqueue_status_message s "debug" "GET_RESOLUTIONS complete")
          (get_connected_detector_labels
            (enqueue_status_message s "debug" "GET_RESOLUTIONS complete"))).result with
      | raised m =>
        simp only [hres]
        exact tick_ext_trans (tick_ext_of_quiet5 (quiet5_of_connections_eq rfl rfl))
          (tick_ext_get_resolutions_fold _ _)
      | ok v =>
        simp only [hres]
        exact tick_ext_trans (tick_ext_of_quiet5 (quiet5_of_connections_eq rfl rfl))
          (tick_ext_get_resolutions_fold _ _)
    | LIST_INTRINSICS =>
      exact tick_ext_trans (tick_ext_of_quiet5 (quiet5_of_connections_eq rfl rfl))
        (tick_ext_list_intrinsics_fold _ _)
    | GET_INTRINSICS =>
      by_cases hm : (enqueue_status_message s "debug"
          "GET_INTRINSICS complete").startup_mode = DETECTING_ONLY
      · rw [if_pos hm]
        exact tick_ext_of_quiet5 (quiet5_of_connections_eq rfl rfl)
      · rw [if_neg hm]
        exact tick_ext_trans (tick_ext_of_quiet5 (quiet5_of_connections_eq rfl rfl))
          (tick_ext_set_intrinsics_solver_fold _ _)
    | INITIAL => exact tick_ext_refl s
    | CONNECTING => exact tick_ext_refl s
    | SET_INTRINSICS => exact tick_ext_of_quiet5 (quiet5_of_connections_eq rfl rfl)
  · rw [if_neg h1]
    by_cases h2 : s.status = Status.STOPPING
    · rw [if_pos h2]
      exact tick_ext_refl s
    · rw [if_neg h2]
      exact tick_ext_refl s

theorem tick_ext_start_tracking (s : Connector) (mode : String) :
    tick_ext s (start_tracking s mode).state := by
  unfold start_tracking
  by_cases h : mode ≠ DETECTING_ONLY ∧ mode ≠ DETECTING_AND_SOLVING
  · rw [if_pos h]
    exact tick_ext_refl s
  · rw [if_neg h]
    exact tick_ext_trans (tick_ext_of_quiet5 (quiet5_of_connections_eq rfl rfl))
      (tick_ext_push_and_pend_fold
        [MCastRequest.start_capture, MCastRequest.list_calibration_detector_resolutions]
        (fun _ => rfl) _ _)

theorem tick_ext_stop_tracking_detector_step (s : Connector) (l : String) :
    tick_ext s (stop_tracking_detector_step s l) := by
  unfold stop_tracking_detector_step
  split
  · exact tick_ext_of_quiet5 (quiet5_of_connections_eq rfl rfl)
  · rename_i live heq
    cases live.request_id with
    | some rid =>
      exact tick_ext_trans (tick_ext_of_quiet5 (quiet5_of_connections_eq rfl rfl))
        (tick_ext_push_and_pend _ l _ (fun _ => rfl))
    | none =>
      exact tick_ext_push_and_pend _ l _ (fun _ => rfl)

theorem tick_ext_stop_tracking_solver_step (s : Connector) (l : String) :
    tick_ext s (stop_tracking_solver_step s l) := by
  unfold stop_tracking_solver_step
  split
  · exact tick_ext_of_quiet5 (quiet5_of_connections_eq rfl rfl)
  · rename_i live heq
    cases live.request_id with
    | some rid =>
      exact tick_ext_trans (tick_ext_of_quiet5 (quiet5_of_connections_eq rfl rfl))
        (tick_ext_push_and_pend _ l _ (fun _ => rfl))
    | none =>
      exact tick_ext_push_and_pend _ l _ (fun _ => rfl)

theorem tick_ext_stop_tracking_detector_fold :
    ∀ (L : List String) (s : Connector), tick_ext s (stop_tracking_detector_fold s L) := by
  intro L
  induction L with
  | nil => intro s; exact tick_ext_refl s
  | cons l rest ih =>
    intro s
    unfold stop_tracking_detector_fold
    exact tick_ext_trans (tick_ext_stop_tracking_detector_step s l) (ih _)

theorem tick_ext_stop_tracking_solver_fold :
    ∀ (L : List String) (s : Connector), tick_ext s (stop_tracking_solver_fold s L) := by
  intro L
  induction L with
  | nil => intro s; exact tick_ext_refl s
  | cons l rest ih =>
    intro s
    unfold stop_tracking_solver_fold
    exact tick_ext_trans (tick_ext_stop_tracking_solver_step s l) (ih _)

theorem tick_ext_stop_tracking (s : Connector) : tick_ext s (stop_tracking s) := by
  unfold stop_tracking
  exact tick_ext_trans (tick_ext_stop_tracking_detector_fold _ _)
    (tick_ext_stop_tracking_solver_fold _ _)

theorem tick_ext_push_then_set_detector (s : Connector) (l : String) :
    tick_ext s (set_detector_request_id
      (request_series_push s l ⟨[MCastRequest.get_marker_snapshots]⟩).1 l
      (some (request_series_push s l ⟨[MCastRequest.get_marker_snapshots]⟩).2)) := by
  refine tick_ext_trans (b := (request_series_push s l
    ⟨[MCastRequest.get_marker_snapshots]⟩).1) ?_ ?_
  · exact ⟨c5_ext_push s l _ (fun _ => rfl), relay_quiet_push s l _⟩
  · exact tick_ext_of_quiet5 (quiet5_set_detector_request_id _ l _)

theorem tick_ext_update_loop_detector_step (now : Timestamp) (s : Connector) (l : String) :
    tick_ext s (update_loop_detector_step now s l).state := by
  unfold update_loop_detector_step
  dsimp only
  split
  · exact tick_ext_of_quiet5 (quiet5_of_connections_eq rfl rfl)
  · rename_i live heq
    split
    · rename_i rid heq2
      split
      · exact tick_ext_of_quiet5 (quiet5_update_request s now rid none none)
      · rename_i pair b new_rid
        split
        · exact tick_ext_of_quiet5
            (quiet5_trans (quiet5_update_request s now rid none none)
              (quiet5_set_detector_request_id (update_request s now rid none none).state l _))
        · refine tick_ext_trans (b := set_detector_request_id
            (update_request s now rid none none).state l none) ?_ ?_
          · exact tick_ext_of_quiet5
              (quiet5_trans (quiet5_update_request s now rid none none)
                (quiet5_set_detector_request_id (update_request s now rid none none).state l none))
          · exact tick_ext_push_then_set_detector _ l
    · exact tick_ext_push_then_set_detector s l

theorem quiet5_drain_pending_fold (now : Timestamp) :
    ∀ (ids : List Nat) (s : Connector) (completed : List Nat),
      quiet5 s (drain_pending_fold now s ids completed).state := by
  intro ids
  induction ids with
  | nil => intro s completed; exact quiet5_refl s
  | cons rid rest ih =>
    intro s completed
    unfold drain_pending_fold
    cases hres : (update_request s now rid none none).result with
    | raised m =>
      simp only [hres]
      exact quiet5_update_request s now rid none none
    | ok v =>
      obtain ⟨b, remaining⟩ := v
      simp only [hres]
      cases remaining with
      | none =>
        exact quiet5_trans (quiet5_update_request s now rid none none) (ih _ _)
      | some r2 =>
        exact quiet5_trans (quiet5_update_request s now rid none none) (ih _ _)

theorem series_corners_corner (a b : List MarkerSnapshot) (dl : String) (ts : Timestamp)
    (dd : String) :
    series_corners [MCastRequest.add_marker_corners a b dl ts] dd
      = if dl = dd then [ts] else [] := by
  unfold series_corners
  by_cases h : dl = dd <;> simp [List.filterMap_cons, h]

theorem emit_rel_single (o : Option Timestamp) (ts : Timestamp)
    (h : ∀ w, o = some w → w < ts) : emit_rel o (some ts) [ts] := by
  refine ⟨List.chain'_singleton ts, ?_, ?_, ?_, ?_⟩
  · intro v hv w hw
    rw [List.mem_singleton] at hv
    subst hv
    exact h w hw
  · intro v hv
    simp only [List.getLast?_singleton, Option.some.injEq] at hv
    subst hv
    exact ⟨ts, rfl, le_refl ts⟩
  · intro w hw
    exact ⟨ts, rfl, le_of_lt (h w hw)⟩
  · intro hn
    cases hn

theorem dtp_eq_of_some {s : Connector} {p : String} {lp : LivePoseSolverData}
    (h : get_live_pose_solver_connection s p = some lp) (dd : String) :
    dtp s p dd = dget lp.detector_timestamps dd := by
  unfold dtp
  rw [h]

theorem dtp_set_self {s : Connector} {p : String} {lp : LivePoseSolverData}
    (lp' : LivePoseSolverData)
    (h : get_live_pose_solver_connection s p = some lp) (dd : String) :
    dtp (set_live_pose_solver_data s p lp') p dd = dget lp'.detector_timestamps dd := by
  unfold dtp
  rw [get_live_pose_solver_set_data, if_pos rfl, h]

theorem dtp_set_other {s : Connector} {p : String} (lp' : LivePoseSolverData)
    (q dd : String) (h : p ≠ q) :
    dtp (set_live_pose_solver_data s p lp') q dd = dtp s q dd := by
  unfold dtp
  rw [get_live_pose_solver_set_data, if_neg h]

/-- The request-building loop of the relay's pose-solver branch: the peer list
and every peer's supervisor state are untouched, nothing is pushed, the
timestamp maps of other solvers are untouched, and for every detector label
the emitted AddMarkerCorners timestamps relate old and new recorded
timestamps by emit_rel, appearing in the built request list after the
accumulator. -/
theorem solver_build_fold_spec (p : String) :
    ∀ (L : List String) (s : Connector) (acc : List MCastRequest),
      relay_quiet s (solver_build_fold p s acc L).state
      ∧ (solver_build_fold p s acc L).state.push_log = s.push_log
      ∧ (∀ q dd, q ≠ p → dtp (solver_build_fold p s acc L).state q dd = dtp s q dd)
      ∧ (∀ dd, ∃ emitted,
          emit_rel (dtp s p dd) (dtp (solver_build_fold p s acc L).state p dd) emitted
          ∧ ∀ out, (solver_build_fold p s acc L).result = PyResult.ok out →
              series_corners out dd = series_corners acc dd ++ emitted) := by
  intro L
  induction L with
  | nil =>
    intro s acc
    refine ⟨relay_quiet_of_connections_eq rfl, rfl, fun q dd _ => rfl, ?_⟩
    intro dd
    refine ⟨[], emit_rel_refl _, ?_⟩
    intro out hout
    have : acc = out := by
      injection hout
    subst this
    rw [List.append_nil]
  | cons d rest ih =>
    intro s acc
    unfold solver_build_fold
    dsimp only
    split
    · refine ⟨relay_quiet_of_connections_eq rfl, rfl, fun q dd _ => rfl, ?_⟩
      intro dd
      refine ⟨[], emit_rel_refl _, ?_⟩
      intro out hout
      exact absurd hout (by simp)
    · rename_i frame heqf
      split
      · exact ih s acc
      · rename_i lp heql
        split
        · rename_i hnew
          set ts := frame.timestamp_utc with hts
          set lp' : LivePoseSolverData :=
            { lp with detector_timestamps := dset lp.detector_timestamps d ts } with hlp'
          set s1 := set_live_pose_solver_data s p lp' with hs1
          set corner := MCastRequest.add_marker_corners frame.detected_marker_snapshots
            frame.rejected_marker_snapshots d ts with hcorner
          have ih1 := ih s1 (acc ++ [corner])
          have hrq : relay_quiet s s1 := relay_quiet_set_live_pose_solver_data s p lp'
          have hlog1 : s1.push_log = s.push_log := rfl
          refine ⟨relay_quiet_trans hrq ih1.1, by rw [ih1.2.1, hlog1], ?_, ?_⟩
          · intro q dd hq
            rw [ih1.2.2.1 q dd hq, hs1, dtp_set_other lp' q dd (fun hpq => hq hpq.symm)]
          · intro dd
            obtain ⟨em', hrel', hout'⟩ := ih1.2.2.2 dd
            by_cases hdd : d = dd
            · subst hdd
              refine ⟨ts :: em', ?_, ?_⟩
              · have hstep : emit_rel (dtp s p d) (some ts) [ts] := by
                  refine emit_rel_single _ ts ?_
                  intro w hw
                  rw [dtp_eq_of_some heql d] at hw
                  rw [hw] at hnew
                  exact of_decide_eq_true hnew
                have hmid : dtp s1 p d = some ts := by
                  rw [hs1, dtp_set_self lp' heql d, hlp']
                  show dget (dset lp.detector_timestamps d ts) d = some ts
                  exact dget_dset_self d ts lp.detector_timestamps
                rw [← hmid] at hstep
                have := emit_rel_trans hstep hrel'
                simpa using this
              · intro out hout
                rw [hout' out hout, series_corners_append, series_corners_corner,
                  if_pos rfl]
                simp
            · refine ⟨em', ?_, ?_⟩
              · have hmid : dtp s1 p dd = dtp s p dd := by
                  rw [hs1, dtp_set_self lp' heql dd, hlp']
                  show dget (dset lp.detector_timestamps d ts) dd = _
                  rw [dget_dset_other d dd ts lp.detector_timestamps hdd,
                    dtp_eq_of_some heql dd]
                rw [← hmid]
                exact hrel'
              · intro out hout
                rw [hout' out hout, series_corners_append, series_corners_corner,
                  if_neg hdd, List.append_nil]
        · exact ih s acc

theorem tick_ext_py_fold (f : Connector → String → PyM Unit)
    (hf : ∀ s x, tick_ext s (f s x).state) :
    ∀ (L : List String) (s : Connector), tick_ext s (py_fold f s L).state := by
  intro L
  induction L with
  | nil => intro s; exact tick_ext_refl s
  | cons x rest ih =>
    intro s
    unfold py_fold
    cases hres : (f s x).result with
    | ok v =>
      simp only [hres]
      exact tick_ext_trans (hf s x) (ih _)
    | raised m =>
      simp only [hres]
      exact hf s x

theorem tick_ext_of_build (s1 : Connector) (p : String)
    (hp : ¬(dget s1.connections p = none)) :
    tick_ext s1 (solver_build_fold p s1 [] (get_connected_detector_labels s1)).state := by
  have hspec := solver_build_fold_spec p (get_connected_detector_labels s1) s1 []
  refine ⟨⟨fun q hq => (hspec.1.2.2 q).mp hq, [], by rw [hspec.2.1, List.append_nil],
    ?_, ?_⟩, hspec.1⟩
  · intro q dd
    rw [sent_corners_nil]
    by_cases hq : q = p
    · subst hq
      obtain ⟨em, hrel, _⟩ := hspec.2.2.2 dd
      exact emit_rel_drop hrel
    · rw [hspec.2.2.1 q dd hq]
      exact emit_rel_refl _
  · intro q dd _
    exact sent_corners_nil q dd

theorem tick_ext_solver_push (s1 : Connector) (p : String)
    (hp : ¬(dget s1.connections p = none)) (out : List MCastRequest)
    (hout : (solver_build_fold p s1 [] (get_connected_detector_labels s1)).result
      = PyResult.ok out) :
    tick_ext s1
      (set_pose_solver_request_id
        (request_series_push
          (solver_build_fold p s1 [] (get_connected_detector_labels s1)).state p
          ⟨out ++ [MCastRequest.get_poses]⟩).1 p
        (some (request_series_push
          (solver_build_fold p s1 [] (get_connected_detector_labels s1)).state p
          ⟨out ++ [MCastRequest.get_poses]⟩).2)) := by
  have hspec := solver_build_fold_spec p (get_connected_detector_labels s1) s1 []
  set sb := (solver_build_fold p s1 [] (get_connected_detector_labels s1)).state with hsb
  set pushed := request_series_push sb p ⟨out ++ [MCastRequest.get_poses]⟩ with hpushed
  set final := set_pose_solver_request_id pushed.1 p (some pushed.2) with hfinal
  have hq1 : quiet5 pushed.1 final := quiet5_set_pose_solver_request_id pushed.1 p _
  have hrel_push : relay_quiet sb pushed.1 := relay_quiet_push sb p _
  have hrelay : relay_quiet s1 final :=
    relay_quiet_trans hspec.1 (relay_quiet_trans hrel_push hq1.1)
  refine ⟨⟨fun q hq => hrelay.2.2 q |>.mp hq, [(p, out ++ [MCastRequest.get_poses])],
    ?_, ?_, ?_⟩, hrelay⟩
  · rw [hfinal]
    have h1 : final.push_log = pushed.1.push_log := hq1.2.2
    rw [show final.push_log = pushed.1.push_log from hq1.2.2,
      hpushed, request_series_push_log, hspec.2.1]
  · intro q dd
    have hdt_final : dtp final q dd = dtp sb q dd := by
      rw [hq1.2.1 q dd, hpushed, dtp_congr (request_series_push_connections sb p _) q dd]
    rw [sent_corners_single, hdt_final]
    by_cases hq : p = q
    · subst hq
      rw [if_pos rfl]
      obtain ⟨em, hrel, hser⟩ := hspec.2.2.2 dd
      have : series_corners (out ++ [MCastRequest.get_poses]) dd = em := by
        rw [series_corners_append, hser out hout]
        simp [series_corners]
      rw [this]
      exact hrel
    · rw [if_neg hq, hspec.2.2.1 q dd (fun h => hq h.symm)]
      exact emit_rel_refl _
  · intro q dd hq
    rw [sent_corners_single]
    by_cases hpq : p = q
    · subst hpq
      exact absurd ((hrelay.2.2 p).mp hq) hp
    · rw [if_neg hpq]

theorem tick_ext_update_loop_solver_step (now : Timestamp) (s : Connector) (p : String) :
    tick_ext s (update_loop_solver_step now s p).state := by
  unfold update_loop_solver_step
  dsimp only
  split
  · exact tick_ext_of_quiet5 (quiet5_of_connections_eq rfl rfl)
  · rename_i live heq
    have hpresent : ¬(dget s.connections p = none) := by
      intro hn
      rw [get_live_pose_solver_eq, hn] at heq
      cases heq
    cases hrid : live.request_id with
    | some rid =>
      cases hres : (update_request s now rid none none).result with
      | raised m =>
        simp only [hrid, hres]
        exact tick_ext_of_quiet5 (quiet5_update_request s now rid none none)
      | ok v =>
        obtain ⟨b, new_rid⟩ := v
        cases new_rid with
        | some r2 =>
          simp only [hrid, hres]
          exact tick_ext_of_quiet5
            (quiet5_trans (quiet5_update_request s now rid none none)
              (quiet5_set_pose_solver_request_id (update_request s now rid none none).state
                p (some r2)))
        | none =>
          simp only [hrid, hres]
          set s1 := set_pose_solver_request_id (update_request s now rid none none).state
            p none with hs1
          have hq1 : quiet5 s s1 :=
            quiet5_trans (quiet5_update_request s now rid none none)
              (quiet5_set_pose_solver_request_id (update_request s now rid none none).state
                p none)
          have hp1 : ¬(dget s1.connections p = none) := by
            intro hn
            exact hpresent ((hq1.1.2.2 p).mp hn)
          cases hbres : (solver_build_fold p s1 [] (get_connected_detector_labels s1)).result with
          | raised m =>
            simp only [hbres]
            exact tick_ext_trans (tick_ext_of_quiet5 hq1) (tick_ext_of_build s1 p hp1)
          | ok out =>
            simp only [hbres]
            exact tick_ext_trans (tick_ext_of_quiet5 hq1)
              (tick_ext_solver_push s1 p hp1 out hbres)
    | none =>
      simp only [hrid]
      cases hbres : (solver_build_fold p s [] (get_connected_detector_labels s)).result with
      | raised m =>
        simp only [hbres]
        exact tick_ext_of_build s p hpresent
      | ok out =>
        simp only [hbres]
        exact tick_ext_solver_push s p hpresent out hbres

theorem tick_ext_update_loop_relay_phase (s : Connector) (now : Timestamp) :
    tick_ext s (update_loop_relay_phase s now).state := by
  unfold update_loop_relay_phase
  by_cases hr : is_running s = true
  · rw [if_pos hr]
    dsimp only
    cases hres : (py_fold (update_loop_detector_step now) s
        (get_connected_detector_labels s)).result with
    | raised m =>
      simp only [hres]
      exact tick_ext_py_fold _ (tick_ext_update_loop_detector_step now) _ s
    | ok v =>
      simp only [hres]
      exact tick_ext_trans
        (tick_ext_py_fold _ (tick_ext_update_loop_detector_step now) _ s)
        (tick_ext_py_fold _ (tick_ext_update_loop_solver_step now) _ _)
  · rw [if_neg hr]
    exact tick_ext_refl s

theorem tick_ext_update_loop_drain_phase (now : Timestamp) (s1 : Connector) :
    tick_ext s1 (update_loop_drain_phase now s1).state := by
  unfold update_loop_drain_phase
  by_cases hl : s1.pending_request_ids.length > 0
  · rw [if_pos hl]
    dsimp only
    cases hres : (drain_pending_fold now s1 s1.pending_request_ids []).result with
    | raised m =>
      simp only [hres]
      exact tick_ext_of_quiet5 (quiet5_drain_pending_fold now _ s1 [])
    | ok completed =>
      simp only [hres]
      by_cases hrem : (List.foldl (fun l rid => l.erase rid)
          (drain_pending_fold now s1 s1.pending_request_ids []).state.pending_request_ids
          completed).length = 0
      · rw [if_pos hrem]
        refine tick_ext_trans (b := { (drain_pending_fold now s1
            s1.pending_request_ids []).state with
              pending_request_ids := List.foldl (fun l rid => l.erase rid)
                (drain_pending_fold now s1 s1.pending_request_ids []).state.pending_request_ids
                completed }) ?_ ?_
        · exact tick_ext_of_quiet5
            (quiet5_trans (quiet5_drain_pending_fold now _ s1 [])
              (quiet5_of_connections_eq rfl rfl))
        · exact tick_ext_on_active _
      · rw [if_neg hrem]
        exact tick_ext_of_quiet5
          (quiet5_trans (quiet5_drain_pending_fold now _ s1 [])
            (quiet5_of_connections_eq rfl rfl))
  · rw [if_neg hl]
    exact tick_ext_refl s1

theorem tick_ext_update_loop (s : Connector) (now : Timestamp) :
    tick_ext s (update_loop s now).state := by
  unfold update_loop
  dsimp only
  cases hres : (update_loop_relay_phase s now).result with
  | raised m =>
    simp only [hres]
    exact tick_ext_update_loop_relay_phase s now
  | ok v =>
    simp only [hres]
    exact tick_ext_trans (tick_ext_update_loop_relay_phase s now)
      (tick_ext_update_loop_drain_phase now _)

theorem dget_none_modify_live (s : Connector) (l : String)
    (f : LiveConnection → LiveConnection) (p : String) :
    dget (modify_live s l f).connections p = none ↔ dget s.connections p = none := by
  rw [connections_modify_live]
  by_cases h : l = p
  · subst h
    rw [dget_dmodify_self]
    cases dget s.connections l <;> simp
  · rw [dget_dmodify_other _ _ _ _ h]

theorem dtp_modify_live_role_preserved (s : Connector) (l : String)
    (f : LiveConnection → LiveConnection)
    (hf : ∀ lc, (f lc).role_data = lc.role_data) (p dd : String) :
    dtp (modify_live s l f) p dd = dtp s p dd := by
  unfold dtp
  by_cases h : l = p
  · subst h
    rw [get_live_pose_solver_modify_self, get_live_pose_solver_eq]
    cases dget s.connections l with
    | none => rfl
    | some c =>
      dsimp only
      rw [hf c.live_connection]
  · rw [get_live_pose_solver_modify_other s l f p h]

theorem c5_ext_modify_live_role_preserved (s : Connector) (l : String)
    (f : LiveConnection → LiveConnection)
    (hf : ∀ lc, (f lc).role_data = lc.role_data) :
    c5_ext s (modify_live s l f) := by
  refine ⟨fun p hp => (dget_none_modify_live s l f p).mp hp, [], List.append_nil _ ▸ rfl,
    ?_, ?_⟩
  · intro p d
    rw [sent_corners_nil, dtp_modify_live_role_preserved s l f hf p d]
    exact emit_rel_refl _
  · intro p d _
    exact sent_corners_nil p d

theorem c5_ext_begin_connecting (s : Connector) (l : String) :
    c5_ext s (begin_connecting s l) := by
  unfold begin_connecting
  split
  · exact c5_ext_of_quiet5 (quiet5_of_connections_eq rfl rfl)
  · split
    · exact c5_ext_of_quiet5 (quiet5_of_connections_eq rfl rfl)
    · exact c5_ext_modify_live_role_preserved s l _ (fun lc => rfl)

theorem c5_ext_begin_disconnecting (s : Connector) (l : String) :
    c5_ext s (begin_disconnecting s l) := by
  unfold begin_disconnecting
  split
  · exact c5_ext_of_quiet5 (quiet5_of_connections_eq rfl rfl)
  · exact c5_ext_modify_live_role_preserved s l _ (fun lc => rfl)

theorem post_responses_connections (l : String) :
    ∀ (pairs : List ((MCastRequestSeries × Nat) × MCastResponseSeries)) (s : Connector),
      (post_responses l s pairs).connections = s.connections
      ∧ (post_responses l s pairs).push_log = s.push_log := by
  intro pairs
  induction pairs with
  | nil => intro s; exact ⟨rfl, rfl⟩
  | cons pr rest ih =>
    intro s
    obtain ⟨pair, resp⟩ := pr
    unfold post_responses
    exact ih _

theorem c5_ext_frame_connected_step (s : Connector) (l : String) (w : WireOracle) :
    c5_ext s (frame_connected_step s l w) := by
  unfold frame_connected_step
  refine c5_ext_of_quiet5 (quiet5_of_connections_eq ?_ ?_)
  · split
    · rfl
    · exact (post_responses_connections l _ s).1
  · split
    · rfl
    · exact (post_responses_connections l _ s).2

theorem c5_ext_frame_connecting_step (s : Connector) (l : String) (now : Timestamp)
    (w : WireOracle) (lc : LiveConnection) :
    c5_ext s (frame_connecting_step s l now w lc) := by
  unfold frame_connecting_step
  dsimp only
  split
  · split
    · split
      · refine c5_ext_trans (b := modify_live
          (add_status_message s "info" ("Connected to " ++ l ++ ".")) l
          (fun l0 => { l0 with socket := true, status := "connected", attempt_count := 0 })) ?_ ?_
        · exact c5_ext_trans (c5_ext_of_quiet5 (quiet5_of_connections_eq rfl rfl))
            (c5_ext_modify_live_role_preserved _ l _ (fun lc => rfl))
        · exact c5_ext_frame_connected_step _ l w
      · split
        · exact c5_ext_trans (c5_ext_of_quiet5 (quiet5_of_connections_eq rfl rfl))
            (c5_ext_modify_live_role_preserved _ l _ (fun lc => rfl))
        · exact c5_ext_trans (c5_ext_of_quiet5 (quiet5_of_connections_eq rfl rfl))
            (c5_ext_modify_live_role_preserved _ l _ (fun lc => rfl))
    · exact c5_ext_of_quiet5 (quiet5_refl s)
  · split
    · exact c5_ext_frame_connected_step s l w
    · exact c5_ext_of_quiet5 (quiet5_refl s)

theorem c5_ext_do_update_frame (s : Connector) (l : String) (now : Timestamp)
    (w : WireOracle) :
    c5_ext s (do_update_frame_for_connection s l now w) := by
  unfold do_update_frame_for_connection
  split
  · exact c5_ext_of_quiet5 (quiet5_refl s)
  · rename_i conn heq
    dsimp only
    split
    · exact c5_ext_of_quiet5 (quiet5_refl s)
    · split
      · exact c5_ext_modify_live_role_preserved s l _ (fun lc => rfl)
      · exact c5_ext_frame_connecting_step s l now w conn.live_connection

theorem dget_dset_none {κ α : Type} [DecidableEq κ] {l : List (κ × α)} {k : κ} {v : α}
    {p : κ} (h : dget (dset l k v) p = none) : dget l p = none := by
  by_cases hp : k = p
  · subst hp
    rw [dget_dset_self] at h
    cases h
  · rw [dget_dset_other _ _ _ _ hp] at h
    exact h

theorem c5_ext_insert_fresh (s : Connector) (label : String) (conn : Connection)
    (hnone : dget s.connections label = none)
    (hdt : ∀ d, (match (match conn.live_connection.role_data with
        | LiveRoleData.pose_solver p0 => some p0
        | _ => none) with
      | none => none
      | some lp => dget lp.detector_timestamps d) = none) :
    c5_ext s { s with connections := dset s.connections label conn } := by
  refine ⟨fun p hp => dget_dset_none hp, [], List.append_nil _ ▸ rfl, ?_, ?_⟩
  · intro p d
    rw [sent_corners_nil]
    have hdtp : dtp { s with connections := dset s.connections label conn } p d
        = dtp s p d := by
      unfold dtp
      rw [get_live_pose_solver_eq, get_live_pose_solver_eq]
      dsimp only
      by_cases hp : label = p
      · subst hp
        rw [dget_dset_self, hnone]
        dsimp only
        exact hdt d
      · rw [dget_dset_other _ _ _ _ hp]
    rw [hdtp]
    exact emit_rel_refl _
  · intro p d _
    exact sent_corners_nil p d

theorem c5_ext_add_connection (s : Connector) (addr : ComponentAddress) :
    c5_ext s (add_connection s addr).state := by
  unfold add_connection
  dsimp only
  by_cases h1 : (dget s.connections addr.label).isSome
  · rw [if_pos h1]
    exact c5_ext_of_quiet5 (quiet5_refl s)
  · rw [if_neg h1]
    have hnone : dget s.connections addr.label = none :=
      Option.not_isSome_iff_eq_none.mp h1
    by_cases h2 : addr.role = COMPONENT_ROLE_LABEL_DETECTOR
    · rw [if_pos h2]
      exact c5_ext_insert_fresh s addr.label _ hnone (fun d => rfl)
    · rw [if_neg h2]
      by_cases h3 : addr.role = COMPONENT_ROLE_LABEL_POSE_SOLVER
      · rw [if_pos h3]
        exact c5_ext_insert_fresh s addr.label _ hnone (fun d => rfl)
      · rw [if_neg h3]
        exact c5_ext_of_quiet5 (quiet5_refl s)

theorem c5_ext_ignore_request (s : Connector) (l : String) (rid : Nat) :
    c5_ext s (ignore_request_and_response s l rid) := by
  unfold ignore_request_and_response
  dsimp only
  refine c5_ext_of_quiet5 (quiet5_of_connections_eq ?_ ?_)
  · split
    · split <;> rfl
    · split <;> rfl
  · split
    · split <;> rfl
    · split <;> rfl

/-- Every event other than peer removal satisfies the C5 simulation step. -/
theorem c5_ext_apply_event (s : Connector) (e : Event)
    (hnr : ∀ l, e ≠ Event.ev_remove_connection l) :
    c5_ext s (apply_event s e) := by
  cases e with
  | ev_add_connection addr => exact c5_ext_add_connection s addr
  | ev_remove_connection l => exact absurd rfl (hnr l)
  | ev_begin_connecting l => exact c5_ext_begin_connecting s l
  | ev_begin_disconnecting l => exact c5_ext_begin_disconnecting s l
  | ev_start_tracking m => exact (tick_ext_start_tracking s m).1
  | ev_stop_tracking => exact (tick_ext_stop_tracking s).1
  | ev_update_loop now => exact (tick_ext_update_loop s now).1
  | ev_update_frame l now w => exact c5_ext_do_update_frame s l now w
  | ev_ignore_request l rid => exact c5_ext_ignore_request s l rid

/-- The C5 history invariant: per (solver, detector) pair the pushed corner
timestamps are strictly increasing, absent peers have never been pushed
corners, and the recorded last-seen timestamp dominates the last pushed one. -/
def c5_inv (s : Connector) : Prop :=
  ∀ p d,
    List.Chain' (· < ·) (sent_corners s.push_log p d)
    ∧ (dget s.connections p = none → sent_corners s.push_log p d = [])
    ∧ (∀ v, (sent_corners s.push_log p d).getLast? = some v →
        ∃ w, dtp s p d = some w ∧ v ≤ w)

theorem c5_inv_preserved {s s' : Connector} (hinv : c5_inv s) (hext : c5_ext s s') :
    c5_inv s' := by
  intro p d
  obtain ⟨hchain, habsent, hlast⟩ := hinv p d
  obtain ⟨hnone, tail, hlog, hemit, hb⟩ := hext
  obtain ⟨c2, ab2, la2, mo2, np2⟩ := hemit p d
  rw [hlog, sent_corners_append]
  refine ⟨?_, ?_, ?_⟩
  · refine List.Chain'.append hchain c2 ?_
    intro a ha b hb'
    obtain ⟨w, hw, haw⟩ := hlast a (Option.mem_def.mp ha)
    exact lt_of_le_of_lt haw (ab2 b (List.mem_of_mem_head? hb') w hw)
  · intro hpnone
    rw [habsent (hnone p hpnone), hb p d hpnone]
    rfl
  · intro v hv
    by_cases ht : sent_corners tail p d = []
    · rw [ht, List.append_nil] at hv
      obtain ⟨w, hw, hvw⟩ := hlast v hv
      obtain ⟨w', hw', hww'⟩ := mo2 w hw
      exact ⟨w', hw', le_trans hvw hww'⟩
    · rw [List.getLast?_append_of_ne_nil _ ht] at hv
      exact la2 v hv

theorem c5_inv_init : c5_inv Connector.init := by
  intro p d
  refine ⟨List.chain'_nil, fun _ => rfl, ?_⟩
  intro v hv
  cases hv

theorem c5_inv_run :
    ∀ (evs : List Event) (s : Connector), c5_inv s →
      (∀ l, Event.ev_remove_connection l ∉ evs) → c5_inv (run_events s evs) := by
  intro evs
  induction evs with
  | nil => intro s hs _; exact hs
  | cons e rest ih =>
    intro s hs hne
    unfold run_events
    rw [List.foldl_cons]
    refine ih (apply_event s e) ?_ ?_
    · exact c5_inv_preserved hs (c5_ext_apply_event s e
        (fun l hl => hne l (hl ▸ List.mem_cons_self e rest)))
    · intro l hl
      exact hne l (List.mem_cons_of_mem e hl)

/-- C5 (confirmed): along every event trace from the initial Connector in
which no peer is removed, the AddMarkerCorners requests pushed to any pose
solver p for any detector label d carry strictly increasing detector
timestamps (the relay loop's per-detector timestamp map admits a new corner
batch only when the frame timestamp strictly exceeds the recorded one); in
particular a Tick during Running in which d's marker_snapshot_timestamp is
unchanged pushes no second AddMarkerCorners for d to p. -/
theorem C5_add_marker_corners_strictly_increasing (events : List Event)
    (hnorem : ∀ l, Event.ev_remove_connection l ∉ events) (p d : String) :
    List.Chain' (· < ·)
      (sent_corners (run_events Connector.init events).push_log p d) :=
  (c5_inv_run events Connector.init c5_inv_init hnorem p d).1

/-- A concrete event trace exercising C5: one detector d1 and one pose solver
s1 run through the whole startup in DetectingAndSolving mode and two relay
Ticks; the relay pushes AddMarkerCorners batches with timestamps 0 and 14. -/
def c5_witness_events : List Event :=
  [Event.ev_add_connection ⟨"d1", "detector", "h", 1⟩,
    Event.ev_add_connection ⟨"s1", "pose_solver", "h", 2⟩,
    Event.ev_begin_connecting "d1",
    Event.ev_begin_connecting "s1",
    Event.ev_update_frame "d1" 1 ⟨true, [], []⟩,
    Event.ev_update_frame "s1" 1 ⟨true, [], []⟩,
    Event.ev_start_tracking DETECTING_AND_SOLVING,
    Event.ev_update_frame "d1" 2
      ⟨true, [⟨[MCastResponse.empty,
        MCastResponse.list_calibration_detector_resolutions [⟨"d1", ⟨640, 480⟩⟩]], ""⟩], []⟩,
    Event.ev_update_loop 3,
    Event.ev_update_frame "d1" 4
      ⟨true, [⟨[MCastResponse.list_calibration_detector_resolutions [⟨"d1", ⟨640, 480⟩⟩],
        MCastResponse.get_capture_properties 640 480], ""⟩], []⟩,
    Event.ev_update_loop 5,
    Event.ev_update_frame "d1" 6
      ⟨true, [⟨[MCastResponse.list_calibration_result_metadata [⟨"c1", 10⟩]], ""⟩], []⟩,
    Event.ev_update_loop 7,
    Event.ev_update_frame "d1" 8
      ⟨true, [⟨[MCastResponse.get_calibration_result ⟨"d1", ⟨77⟩⟩], ""⟩], []⟩,
    Event.ev_update_loop 9,
    Event.ev_update_frame "s1" 10
      ⟨true, [⟨[MCastResponse.empty, MCastResponse.empty], ""⟩], []⟩,
    Event.ev_update_loop 11,
    Event.ev_update_loop 12,
    Event.ev_update_frame "d1" 13
      ⟨true, [⟨[MCastResponse.get_marker_snapshots [⟨1⟩] []], ""⟩], []⟩,
    Event.ev_update_frame "s1" 13
      ⟨true, [⟨[MCastResponse.get_poses [] []], ""⟩], []⟩,
    Event.ev_update_loop 14]

/-- Witness for C5: on the concrete trace the pushed corner timestamps for
pose solver s1 and detector d1 are [0, 14], strictly increasing. -/
theorem C5_add_marker_corners_strictly_increasing_witness :
    List.Chain' (· < ·)
      (sent_corners (run_events Connector.init c5_witness_events).push_log "s1" "d1")
    ∧ sent_corners (run_events Connector.init c5_witness_events).push_log "s1" "d1"
        = [0, 14] := by
  refine ⟨C5_add_marker_corners_strictly_increasing c5_witness_events ?_ "s1" "d1",
    by decide⟩
  intro l hl
  simp [c5_witness_events] at hl

/-! Infrastructure for C7: the Aborted-session invariant. -/

/-- Every peer entry whose session is aborted carries an attempt counter at or
above the configured maximum. -/
def aborted_inv (s : Connector) : Prop :=
  ∀ e ∈ s.connections, (e : String × Connection).2.live_connection.status = "aborted" →
    ATTEMPT_COUNT_MAXIMUM ≤ e.2.live_connection.attempt_count

theorem aborted_inv_of_relay_quiet {s s' : Connector} (h : relay_quiet s s')
    (hinv : aborted_inv s) : aborted_inv s' := by
  intro e' he' habs
  obtain ⟨e, he, hs, hc⟩ := h.2.1 e' he'
  rw [hs] at habs
  rw [hc]
  exact hinv e he habs

theorem mem_dset {κ α : Type} [DecidableEq κ] {l : List (κ × α)} {k : κ} {v : α}
    {e : κ × α} (he : e ∈ dset l k v) : e ∈ l ∨ e = (k, v) := by
  induction l with
  | nil =>
    rcases List.mem_singleton.mp he with h
    exact Or.inr h
  | cons p rest ih =>
    obtain ⟨k0, v0⟩ := p
    by_cases h0 : k0 = k
    · subst h0
      rw [show dset ((k0, v0) :: rest) k0 v = (k0, v) :: rest from by simp [dset]] at he
      rcases List.mem_cons.mp he with h | h
      · exact Or.inr h
      · exact Or.inl (List.mem_cons_of_mem _ h)
    · rw [show dset ((k0, v0) :: rest) k v = (k0, v0) :: dset rest k v from by
        simp [dset, h0]] at he
      rcases List.mem_cons.mp he with h | h
      · exact Or.inl (h ▸ List.mem_cons_self _ _)
      · rcases ih h with h' | h'
        · exact Or.inl (List.mem_cons_of_mem _ h')
        · exact Or.inr h'

theorem mem_ddel {κ α : Type} [DecidableEq κ] {l : List (κ × α)} {k : κ}
    {e : κ × α} (he : e ∈ ddel l k) : e ∈ l := by
  induction l with
  | nil => exact absurd he (List.not_mem_nil e)
  | cons p rest ih =>
    obtain ⟨k0, v0⟩ := p
    by_cases h0 : k0 = k
    · subst h0
      rw [show ddel ((k0, v0) :: rest) k0 = rest from by simp [ddel]] at he
      exact List.mem_cons_of_mem _ he
    · rw [show ddel ((k0, v0) :: rest) k = (k0, v0) :: ddel rest k from by
        simp [ddel, h0]] at he
      rcases List.mem_cons.mp he with h | h
      · exact h ▸ List.mem_cons_self _ _
      · exact List.mem_cons_of_mem _ (ih h)

theorem frame_connected_connections (s : Connector) (l : String) (w : WireOracle) :
    (frame_connected_step s l w).connections = s.connections := by
  unfold frame_connected_step
  split
  · rfl
  · exact (post_responses_connections l _ s).1

theorem aborted_inv_begin_connecting {s : Connector} (hinv : aborted_inv s) (l : String) :
    aborted_inv (begin_connecting s l) := by
  unfold begin_connecting
  split
  · exact hinv
  · split
    · exact hinv
    · intro e' he' habs
      rw [connections_modify_live] at he'
      rcases mem_dmodify he' with h | ⟨v, hv, hev⟩
      · exact hinv e' h habs
      · subst hev
        simp at habs

theorem aborted_inv_begin_disconnecting {s : Connector} (hinv : aborted_inv s)
    (l : String) : aborted_inv (begin_disconnecting s l) := by
  unfold begin_disconnecting
  split
  · exact hinv
  · intro e' he' habs
    rw [connections_modify_live] at he'
    rcases mem_dmodify he' with h | ⟨v, hv, hev⟩
    · exact hinv e' h habs
    · subst hev
      simp at habs

theorem aborted_inv_add_connection {s : Connector} (hinv : aborted_inv s)
    (addr : ComponentAddress) : aborted_inv (add_connection s addr).state := by
  unfold add_connection
  dsimp only
  by_cases h1 : (dget s.connections addr.label).isSome
  · rw [if_pos h1]; exact hinv
  · rw [if_neg h1]
    by_cases h2 : addr.role = COMPONENT_ROLE_LABEL_DETECTOR
    · rw [if_pos h2]
      intro e' he' habs
      rcases mem_dset he' with h | h
      · exact hinv e' h habs
      · subst h
        simp [fresh_live_connection] at habs
    · rw [if_neg h2]
      by_cases h3 : addr.role = COMPONENT_ROLE_LABEL_POSE_SOLVER
      · rw [if_pos h3]
        intro e' he' habs
        rcases mem_dset he' with h | h
        · exact hinv e' h habs
        · subst h
          simp [fresh_live_connection] at habs
      · rw [if_neg h3]; exact hinv

theorem aborted_inv_remove_connection {s : Connector} (hinv : aborted_inv s)
    (l : String) : aborted_inv (remove_connection s l).state := by
  unfold remove_connection
  split
  · exact hinv
  · intro e' he' habs
    exact hinv e' (mem_ddel he') habs

theorem aborted_inv_ignore {s : Connector} (hinv : aborted_inv s) (l : String)
    (rid : Nat) : aborted_inv (ignore_request_and_response s l rid) := by
  refine aborted_inv_of_relay_quiet ?_ hinv
  refine relay_quiet_of_connections_eq ?_
  unfold ignore_request_and_response
  dsimp only
  split
  · split <;> rfl
  · split <;> rfl

theorem aborted_inv_frame_connecting {s : Connector} {l : String} {now : Timestamp}
    {w : WireOracle} {conn : Connection} (hinv : aborted_inv s)
    (heq : dget s.connections l = some conn)
    (hstat : conn.live_connection.status = "connecting") :
    aborted_inv (frame_connecting_step s l now w conn.live_connection) := by
  unfold frame_connecting_step
  dsimp only
  rw [if_pos hstat]
  split
  · split
    · -- connect succeeded: status becomes "connected", then the connected step
      intro e' he' habs
      rw [frame_connected_connections, connections_modify_live] at he'
      rcases mem_dmodify he' with h | ⟨v, hv, hev⟩
      · exact hinv e' h habs
      · subst hev
        simp at habs
    · split
      · -- aborting: the incremented counter is at or above the maximum
        rename_i hguard
        intro e' he' habs
        rw [connections_modify_live] at he'
        rcases mem_dmodify he' with h | ⟨v, hv, hev⟩
        · exact hinv e' h habs
        · subst hev
          exact hguard
      · -- retrying: the session status is unchanged ("connecting")
        intro e' he' habs
        rw [connections_modify_live] at he'
        rcases mem_dmodify he' with h | ⟨v, hv, hev⟩
        · exact hinv e' h habs
        · subst hev
          have hv' : dget s.connections l = some v := hv
          rw [heq] at hv'
          injection hv' with hv'
          subst hv'
          have habs' : conn.live_connection.status = "aborted" := habs
          rw [hstat] at habs'
          simp at habs'
  · exact hinv

theorem aborted_inv_do_update_frame {s : Connector} (hinv : aborted_inv s)
    (l : String) (now : Timestamp) (w : WireOracle) :
    aborted_inv (do_update_frame_for_connection s l now w) := by
  unfold do_update_frame_for_connection
  split
  · exact hinv
  · rename_i conn heq
    dsimp only
    split
    · exact hinv
    · split
      · intro e' he' habs
        rw [connections_modify_live] at he'
        rcases mem_dmodify he' with h | ⟨v, hv, hev⟩
        · exact hinv e' h habs
        · subst hev
          simp at habs
      · rename_i hnd hnc
        by_cases hstat : conn.live_connection.status = "connecting"
        · exact aborted_inv_frame_connecting hinv heq hstat
        · unfold frame_connecting_step
          rw [if_neg hstat]
          by_cases hconn2 : conn.live_connection.status = "connected"
          · rw [if_pos hconn2]
            intro e' he' habs
            rw [frame_connected_connections] at he'
            exact hinv e' he' habs
          · rw [if_neg hconn2]
            exact hinv

theorem aborted_inv_apply_event {s : Connector} (hinv : aborted_inv s) (e : Event) :
    aborted_inv (apply_event s e) := by
  cases e with
  | ev_add_connection addr => exact aborted_inv_add_connection hinv addr
  | ev_remove_connection l => exact aborted_inv_remove_connection hinv l
  | ev_begin_connecting l => exact aborted_inv_begin_connecting hinv l
  | ev_begin_disconnecting l => exact aborted_inv_begin_disconnecting hinv l
  | ev_start_tracking m =>
    exact aborted_inv_of_relay_quiet (tick_ext_start_tracking s m).2 hinv
  | ev_stop_tracking =>
    exact aborted_inv_of_relay_quiet (tick_ext_stop_tracking s).2 hinv
  | ev_update_loop now =>
    exact aborted_inv_of_relay_quiet (tick_ext_update_loop s now).2 hinv
  | ev_update_frame l now w => exact aborted_inv_do_update_frame hinv l now w
  | ev_ignore_request l rid => exact aborted_inv_ignore hinv l rid

theorem aborted_inv_init : aborted_inv Connector.init := by
  intro e he
  exact absurd he (List.not_mem_nil e)

theorem aborted_inv_run (events : List Event) :
    aborted_inv (run_events Connector.init events) := by
  suffices h : ∀ (evs : List Event) (s : Connector), aborted_inv s →
      aborted_inv (run_events s evs) from h events Connector.init aborted_inv_init
  intro evs
  induction evs with
  | nil => intro s hs; exact hs
  | cons e rest ih =>
    intro s hs
    unfold run_events
    rw [List.foldl_cons]
    exact ih (apply_event s e) (aborted_inv_apply_event hs e)

theorem connections_add_status_message (s : Connector) (sev msg : String) :
    (add_status_message s sev msg).connections = s.connections := rfl

theorem status_count_eq_of_relay_quiet {s s' : Connector} (h : relay_quiet s s')
    {l : String} {c c' : Connection} (hb : dget s.connections l = some c)
    (ha : dget s'.connections l = some c') :
    c'.live_connection.status = c.live_connection.status
    ∧ c'.live_connection.attempt_count = c.live_connection.attempt_count := by
  have h1 := h.1 l
  rw [conn_status_count_eq, conn_status_count_eq, hb, ha, Option.map_some',
    Option.map_some'] at h1
  injection h1 with h1
  exact ⟨congrArg Prod.fst h1, congrArg Prod.snd h1⟩

theorem ignore_connections (s : Connector) (l : String) (rid : Nat) :
    (ignore_request_and_response s l rid).connections = s.connections := by
  unfold ignore_request_and_response
  dsimp only
  split
  · split <;> rfl
  · split <;> rfl

theorem dget_do_update_frame_other (s : Connector) (l' : String) (now : Timestamp)
    (w : WireOracle) (l : String) (hl : l' ≠ l) :
    dget (do_update_frame_for_connection s l' now w).connections l
      = dget s.connections l := by
  unfold do_update_frame_for_connection
  split
  · rfl
  · dsimp only
    split
    · rfl
    · split
      · rw [connections_modify_live, dget_dmodify_other _ _ _ _ hl]
      · unfold frame_connecting_step
        dsimp only
        split
        · split
          · split
            · rw [frame_connected_connections, connections_modify_live,
                connections_add_status_message, dget_dmodify_other _ _ _ _ hl]
            · split
              · rw [connections_modify_live, connections_add_status_message,
                  dget_dmodify_other _ _ _ _ hl]
              · rw [connections_modify_live, connections_add_status_message,
                  dget_dmodify_other _ _ _ _ hl]
          · rfl
        · split
          · rw [frame_connected_connections]
          · rfl

theorem aborted_entering (s : Connector) (e : Event) (l : String) (c c' : Connection)
    (hnd : (s.connections.map Prod.fst).Nodup)
    (hb : dget s.connections l = some c)
    (ha : dget (apply_event s e).connections l = some c')
    (hne : ¬ c.live_connection.status = "aborted")
    (habs : c'.live_connection.status = "aborted") :
    ∃ now w, e = Event.ev_update_frame l now w
      ∧ w.connect_ok = false
      ∧ c.live_connection.status = "connecting"
      ∧ c.live_connection.next_attempt_timestamp_utc ≤ now
      ∧ c'.live_connection.attempt_count = c.live_connection.attempt_count + 1
      ∧ ATTEMPT_COUNT_MAXIMUM ≤ c'.live_connection.attempt_count := by
  cases e with
  | ev_add_connection addr =>
    exfalso
    dsimp only [apply_event] at ha
    unfold add_connection at ha
    dsimp only at ha
    by_cases h1 : (dget s.connections addr.label).isSome
    · rw [if_pos h1] at ha
      rw [hb] at ha
      injection ha with h
      subst h
      exact hne habs
    · rw [if_neg h1] at ha
      have hl : addr.label ≠ l := by
        intro hll
        rw [hll, hb] at h1
        exact h1 rfl
      by_cases h2 : addr.role = COMPONENT_ROLE_LABEL_DETECTOR
      · rw [if_pos h2] at ha
        dsimp only at ha
        rw [dget_dset_other addr.label l _ s.connections hl, hb] at ha
        injection ha with h
        subst h
        exact hne habs
      · rw [if_neg h2] at ha
        by_cases h3 : addr.role = COMPONENT_ROLE_LABEL_POSE_SOLVER
        · rw [if_pos h3] at ha
          dsimp only at ha
          rw [dget_dset_other addr.label l _ s.connections hl, hb] at ha
          injection ha with h
          subst h
          exact hne habs
        · rw [if_neg h3] at ha
          rw [hb] at ha
          injection ha with h
          subst h
          exact hne habs
  | ev_remove_connection l' =>
    exfalso
    dsimp only [apply_event] at ha
    unfold remove_connection at ha
    by_cases hl : l' = l
    · subst hl
      rw [hb] at ha
      dsimp only at ha
      rw [dget_ddel_self_of_nodup s.connections l' hnd] at ha
      exact Option.noConfusion ha
    · cases hd : dget s.connections l' with
      | none =>
        rw [hd] at ha
        dsimp only at ha
        rw [hb] at ha
        injection ha with h
        subst h
        exact hne habs
      | some c0 =>
        rw [hd] at ha
        dsimp only at ha
        rw [dget_ddel_other s.connections l' l hl, hb] at ha
        injection ha with h
        subst h
        exact hne habs
  | ev_begin_connecting l' =>
    exfalso
    dsimp only [apply_event] at ha
    unfold begin_connecting at ha
    cases hd : dget s.connections l' with
    | none =>
      rw [hd] at ha
      dsimp only at ha
      rw [connections_add_status_message, hb] at ha
      injection ha with h
      subst h
      exact hne habs
    | some c0 =>
      rw [hd] at ha
      dsimp only at ha
      by_cases hc0 : c0.live_connection.status = "connected"
      · rw [if_pos hc0] at ha
        rw [connections_add_status_message, hb] at ha
        injection ha with h
        subst h
        exact hne habs
      · rw [if_neg hc0] at ha
        rw [connections_modify_live] at ha
        by_cases hl : l' = l
        · subst hl
          rw [dget_dmodify_self, hb, Option.map_some'] at ha
          injection ha with h
          subst h
          simp at habs
        · rw [dget_dmodify_other l' l _ s.connections hl, hb] at ha
          injection ha with h
          subst h
          exact hne habs
  | ev_begin_disconnecting l' =>
    exfalso
    dsimp only [apply_event] at ha
    unfold begin_disconnecting at ha
    cases hd : dget s.connections l' with
    | none =>
      rw [hd] at ha
      dsimp only at ha
      rw [connections_add_status_message, hb] at ha
      injection ha with h
      subst h
      exact hne habs
    | some c0 =>
      rw [hd] at ha
      dsimp only at ha
      rw [connections_modify_live] at ha
      by_cases hl : l' = l
      · subst hl
        rw [dget_dmodify_self, hb, Option.map_some'] at ha
        injection ha with h
        subst h
        simp at habs
      · rw [dget_dmodify_other l' l _ s.connections hl, hb] at ha
        injection ha with h
        subst h
        exact hne habs
  | ev_start_tracking m =>
    exfalso
    dsimp only [apply_event] at ha
    have h := status_count_eq_of_relay_quiet (tick_ext_start_tracking s m).2 hb ha
    exact hne (h.1.symm.trans habs)
  | ev_stop_tracking =>
    exfalso
    dsimp only [apply_event] at ha
    have h := status_count_eq_of_relay_quiet (tick_ext_stop_tracking s).2 hb ha
    exact hne (h.1.symm.trans habs)
  | ev_update_loop now =>
    exfalso
    dsimp only [apply_event] at ha
    have h := status_count_eq_of_relay_quiet (tick_ext_update_loop s now).2 hb ha
    exact hne (h.1.symm.trans habs)
  | ev_ignore_request l' rid =>
    exfalso
    dsimp only [apply_event] at ha
    rw [ignore_connections, hb] at ha
    injection ha with h
    subst h
    exact hne habs
  | ev_update_frame l' now w =>
    dsimp only [apply_event] at ha
    by_cases hl : l' = l
    · subst hl
      unfold do_update_frame_for_connection at ha
      rw [hb] at ha
      dsimp only at ha
      by_cases hd12 : c.live_connection.status = "disconnected"
          ∨ c.live_connection.status = "aborted"
      · exfalso
        rw [if_pos hd12] at ha
        rw [hb] at ha
        injection ha with h
        subst h
        exact hne habs
      · rw [if_neg hd12] at ha
        by_cases hdc : c.live_connection.status = "disconnecting"
        · exfalso
          rw [if_pos hdc] at ha
          rw [connections_modify_live, dget_dmodify_self, hb, Option.map_some'] at ha
          injection ha with h
          subst h
          simp at habs
        · rw [if_neg hdc] at ha
          unfold frame_connecting_step at ha
          dsimp only at ha
          by_cases hcn : c.live_connection.status = "connecting"
          · rw [if_pos hcn] at ha
            by_cases hta : now ≥ c.live_connection.next_attempt_timestamp_utc
            · rw [if_pos hta] at ha
              by_cases hok : w.connect_ok = true
              · exfalso
                rw [if_pos hok] at ha
                rw [frame_connected_connections, connections_modify_live,
                  connections_add_status_message, dget_dmodify_self, hb,
                  Option.map_some'] at ha
                injection ha with h
                subst h
                simp at habs
              · rw [if_neg hok] at ha
                by_cases hmax : c.live_connection.attempt_count + 1
                    ≥ ATTEMPT_COUNT_MAXIMUM
                · rw [if_pos hmax] at ha
                  rw [connections_modify_live, connections_add_status_message,
                    dget_dmodify_self, hb, Option.map_some'] at ha
                  injection ha with h
                  subst h
                  refine ⟨now, w, rfl, ?_, hcn, hta, rfl, hmax⟩
                  simpa using hok
                · exfalso
                  rw [if_neg hmax] at ha
                  rw [connections_modify_live, connections_add_status_message,
                    dget_dmodify_self, hb, Option.map_some'] at ha
                  injection ha with h
                  subst h
                  have habs' : c.live_connection.status = "aborted" := habs
                  rw [hcn] at habs'
                  simp at habs'
            · exfalso
              rw [if_neg hta] at ha
              rw [hb] at ha
              injection ha with h
              subst h
              exact hne habs
          · exfalso
            rw [if_neg hcn] at ha
            by_cases hco : c.live_connection.status = "connected"
            · rw [if_pos hco, frame_connected_connections, hb] at ha
              injection ha with h
              subst h
              exact hne habs
            · rw [if_neg hco] at ha
              rw [hb] at ha
              injection ha with h
              subst h
              exact hne habs
    · exfalso
      rw [dget_do_update_frame_other s l' now w l hl, hb] at ha
      injection ha with h
      subst h
      exact hne habs

theorem aborted_leaving (s : Connector) (e : Event) (l : String) (c c' : Connection)
    (hnd : (s.connections.map Prod.fst).Nodup)
    (hb : dget s.connections l = some c)
    (ha : dget (apply_event s e).connections l = some c')
    (habs : c.live_connection.status = "aborted")
    (hne : ¬ c'.live_connection.status = "aborted") :
    e = Event.ev_begin_connecting l ∨ e = Event.ev_begin_disconnecting l := by
  cases e with
  | ev_add_connection addr =>
    exfalso
    dsimp only [apply_event] at ha
    unfold add_connection at ha
    dsimp only at ha
    by_cases h1 : (dget s.connections addr.label).isSome
    · rw [if_pos h1] at ha
      rw [hb] at ha
      injection ha with h
      subst h
      exact hne habs
    · rw [if_neg h1] at ha
      have hl : addr.label ≠ l := by
        intro hll
        rw [hll, hb] at h1
        exact h1 rfl
      by_cases h2 : addr.role = COMPONENT_ROLE_LABEL_DETECTOR
      · rw [if_pos h2] at ha
        dsimp only at ha
        rw [dget_dset_other addr.label l _ s.connections hl, hb] at ha
        injection ha with h
        subst h
        exact hne habs
      · rw [if_neg h2] at ha
        by_cases h3 : addr.role = COMPONENT_ROLE_LABEL_POSE_SOLVER
        · rw [if_pos h3] at ha
          dsimp only at ha
          rw [dget_dset_other addr.label l _ s.connections hl, hb] at ha
          injection ha with h
          subst h
          exact hne habs
        · rw [if_neg h3] at ha
          rw [hb] at ha
          injection ha with h
          subst h
          exact hne habs
  | ev_remove_connection l' =>
    exfalso
    dsimp only [apply_event] at ha
    unfold remove_connection at ha
    by_cases hl : l' = l
    · subst hl
      rw [hb] at ha
      dsimp only at ha
      rw [dget_ddel_self_of_nodup s.connections l' hnd] at ha
      exact Option.noConfusion ha
    · cases hd : dget s.connections l' with
      | none =>
        rw [hd] at ha
        dsimp only at ha
        rw [hb] at ha
        injection ha with h
        subst h
        exact hne habs
      | some c0 =>
        rw [hd] at ha
        dsimp only at ha
        rw [dget_ddel_other s.connections l' l hl, hb] at ha
        injection ha with h
        subst h
        exact hne habs
  | ev_begin_connecting l' =>
    by_cases hl : l' = l
    · exact Or.inl (by rw [hl])
    · exfalso
      dsimp only [apply_event] at ha
      unfold begin_connecting at ha
      cases hd : dget s.connections l' with
      | none =>
        rw [hd] at ha
        dsimp only at ha
        rw [connections_add_status_message, hb] at ha
        injection ha with h
        subst h
        exact hne habs
      | some c0 =>
        rw [hd] at ha
        dsimp only at ha
        by_cases hc0 : c0.live_connection.status = "connected"
        · rw [if_pos hc0] at ha
          rw [connections_add_status_message, hb] at ha
          injection ha with h
          subst h
          exact hne habs
        · rw [if_neg hc0] at ha
          rw [connections_modify_live, dget_dmodify_other l' l _ s.connections hl,
            hb] at ha
          injection ha with h
          subst h
          exact hne habs
  | ev_begin_disconnecting l' =>
    by_cases hl : l' = l
    · exact Or.inr (by rw [hl])
    · exfalso
      dsimp only [apply_event] at ha
      unfold begin_disconnecting at ha
      cases hd : dget s.connections l' with
      | none =>
        rw [hd] at ha
        dsimp only at ha
        rw [connections_add_status_message, hb] at ha
        injection ha with h
        subst h
        exact hne habs
      | some c0 =>
        rw [hd] at ha
        dsimp only at ha
        rw [connections_modify_live, dget_dmodify_other l' l _ s.connections hl,
          hb] at ha
        injection ha with h
        subst h
        exact hne habs
  | ev_start_tracking m =>
    exfalso
    dsimp only [apply_event] at ha
    have h := status_count_eq_of_relay_quiet (tick_ext_start_tracking s m).2 hb ha
    exact hne (h.1.trans habs)
  | ev_stop_tracking =>
    exfalso
    dsimp only [apply_event] at ha
    have h := status_count_eq_of_relay_quiet (tick_ext_stop_tracking s).2 hb ha
    exact hne (h.1.trans habs)
  | ev_update_loop now =>
    exfalso
    dsimp only [apply_event] at ha
    have h := status_count_eq_of_relay_quiet (tick_ext_update_loop s now).2 hb ha
    exact hne (h.1.trans habs)
  | ev_ignore_request l' rid =>
    exfalso
    dsimp only [apply_event] at ha
    rw [ignore_connections, hb] at ha
    injection ha with h
    subst h
    exact hne habs
  | ev_update_frame l' now w =>
    exfalso
    dsimp only [apply_event] at ha
    by_cases hl : l' = l
    · subst hl
      unfold do_update_frame_for_connection at ha
      rw [hb] at ha
      dsimp only at ha
      rw [if_pos (Or.inr habs)] at ha
      rw [hb] at ha
      injection ha with h
      subst h
      exact hne habs
    · rw [dget_do_update_frame_other s l' now w l hl, hb] at ha
      injection ha with h
      subst h
      exact hne habs

/-- The trace driving one detector peer through five failed connection
attempts: the fifth failure trips the abort branch. -/
def c7_witness_events : List Event :=
  [Event.ev_add_connection ⟨"x", "detector", "h", 1⟩,
   Event.ev_begin_connecting "x",
   Event.ev_update_frame "x" 10 ⟨false, [], []⟩,
   Event.ev_update_frame "x" 20 ⟨false, [], []⟩,
   Event.ev_update_frame "x" 30 ⟨false, [], []⟩,
   Event.ev_update_frame "x" 40 ⟨false, [], []⟩,
   Event.ev_update_frame "x" 50 ⟨false, [], []⟩]

/-- The connection record after four failed attempts. -/
def c7_c4 : Connection :=
  ⟨⟨"x", "detector", "h", 1⟩,
   ⟨"connecting", 4, 45, false, LiveRoleData.detector reset_live_detector_data⟩⟩

/-- The connection record after the aborting fifth attempt. -/
def c7_c5 : Connection :=
  ⟨⟨"x", "detector", "h", 1⟩,
   ⟨"aborted", 5, 45, false, LiveRoleData.detector reset_live_detector_data⟩⟩

/-- C7 (amended): in every reachable state an Aborted peer's attempt counter is
at or above ATTEMPT_COUNT_MAXIMUM; a peer's status becomes "aborted" only when
a frame update for that peer fails to connect while the peer was Connecting and
past its retry time, incrementing the counter to at least the maximum; and a
peer's status ceases to be "aborted" only via ConnectPeer (begin_connecting) or
DisconnectPeer (begin_disconnecting) for that peer — the original claim omitted
the DisconnectPeer exit. -/
theorem C7_aborted_amended :
    (∀ events : List Event, aborted_inv (run_events Connector.init events))
    ∧ (∀ (s : Connector) (e : Event) (l : String) (c c' : Connection),
        (s.connections.map Prod.fst).Nodup →
        dget s.connections l = some c →
        dget (apply_event s e).connections l = some c' →
        ¬ c.live_connection.status = "aborted" →
        c'.live_connection.status = "aborted" →
        ∃ now w, e = Event.ev_update_frame l now w
          ∧ w.connect_ok = false
          ∧ c.live_connection.status = "connecting"
          ∧ c.live_connection.next_attempt_timestamp_utc ≤ now
          ∧ c'.live_connection.attempt_count = c.live_connection.attempt_count + 1
          ∧ ATTEMPT_COUNT_MAXIMUM ≤ c'.live_connection.attempt_count)
    ∧ (∀ (s : Connector) (e : Event) (l : String) (c c' : Connection),
        (s.connections.map Prod.fst).Nodup →
        dget s.connections l = some c →
        dget (apply_event s e).connections l = some c' →
        c.live_connection.status = "aborted" →
        ¬ c'.live_connection.status = "aborted" →
        e = Event.ev_begin_connecting l ∨ e = Event.ev_begin_disconnecting l) :=
  ⟨aborted_inv_run, aborted_entering, aborted_leaving⟩

/-- C7 counterexample to the original claim: a peer aborted after five failed
attempts leaves the Aborted status through DisconnectPeer (begin_disconnecting),
not only through ConnectPeer. -/
theorem C7_aborted_left_by_disconnect :
    ((dget (run_events Connector.init c7_witness_events).connections "x").map
        (fun c => c.live_connection.status) = some "aborted")
    ∧ ((dget (begin_disconnecting (run_events Connector.init c7_witness_events)
          "x").connections "x").map
        (fun c => c.live_connection.status) = some "disconnecting") :=
  ⟨rfl, rfl⟩

/-- The amended C7 theorem applied at the concrete five-failure trace: the
invariant holds along it, the fifth frame update is recognised as the aborting
entry with counter 5, and re-arming the aborted peer is recognised as a
ConnectPeer exit. -/
theorem C7_aborted_amended_witness :
    aborted_inv (run_events Connector.init c7_witness_events)
    ∧ (∃ now w, (Event.ev_update_frame "x" 50 ⟨false, [], []⟩ : Event)
          = Event.ev_update_frame "x" now w
        ∧ w.connect_ok = false
        ∧ c7_c4.live_connection.status = "connecting"
        ∧ c7_c4.live_connection.next_attempt_timestamp_utc ≤ now
        ∧ c7_c5.live_connection.attempt_count
            = c7_c4.live_connection.attempt_count + 1
        ∧ ATTEMPT_COUNT_MAXIMUM ≤ c7_c5.live_connection.attempt_count)
    ∧ ((Event.ev_begin_connecting "x" : Event) = Event.ev_begin_connecting "x"
        ∨ (Event.ev_begin_connecting "x" : Event)
          = Event.ev_begin_disconnecting "x") :=
  ⟨C7_aborted_amended.1 c7_witness_events,
   C7_aborted_amended.2.1 (run_events Connector.init (c7_witness_events.take 6))
     (Event.ev_update_frame "x" 50 ⟨false, [], []⟩) "x" c7_c4 c7_c5
     (by decide) (by decide) (by decide) (by decide) (by decide),
   C7_aborted_amended.2.2 (run_events Connector.init c7_witness_events)
     (Event.ev_begin_connecting "x") "x" c7_c5
     ⟨⟨"x", "detector", "h", 1⟩,
      ⟨"connecting", 0, 45, false, LiveRoleData.detector reset_live_detector_data⟩⟩
     (by decide) (by decide) (by decide) (by decide) (by decide)⟩

end MCSTrack
